import Mathlib

/-!
Verification of the history-editor core (`custom_components/history_editor/__init__.py`).

The Python module edits a recorder database of raw state samples (`States`,
joined to `StatesMeta` for entity resolution) and two levels of derived
rollups (`StatisticsShortTerm`, 5-minute buckets, and `Statistics`, hourly
buckets, both joined to `StatisticsMeta`).  This file gives a shallow
embedding of the tables and of the synchronous mutation functions, and proves
the specified consistency properties about them.

Modelling conventions:
* Python floats (timestamps, statistic values) are modelled as `ℚ`; all the
  arithmetic the code performs on them (sums, division by a length, `min`,
  `max`, floor division for bucket keys) is exact on the inputs considered.
* A state's `state` column is a string which the code attempts to parse with
  `float(...)`; we model the column as either a numeric literal carrying its
  value or a non-numeric string, with `parseFloat` playing the role of the
  guarded `float(...)` call.
* SQL `NULL` becomes `Option`; SQL comparisons against `NULL` are false, as in
  the database.
* `query(...).order_by(x.asc())` returns rows sorted by the key with ties in
  primary-key (rowid) order, as SQLite produces; this is modelled by sorting
  with the lexicographic order on (key, row id).
* `query(...).first()` is `List.find?`; in-place mutation of the object it
  returns is `updateFirst`; `query(...).delete()` is a filter plus row count.
* The try/except blocks that swallow a data-layer error and continue are
  modelled by an explicit success flag or an `Except`-valued parameter, so
  that the error path is a real case of the definition.
-/

namespace HistoryEditor

/-- A raw `state` column value: either a string that `float(...)` parses,
carried with its numeric value, or a non-numeric string. -/
inductive StateVal where
  | num (q : ℚ)
  | txt (s : String)
deriving DecidableEq, Repr

/-- The guarded `float(s.state)` call: numeric values parse, everything else
raises (modelled as `none`). -/
def parseFloat : StateVal → Option ℚ
  | .num q => some q
  | .txt _ => none

/-- The parsed value of a sample; only ever used on samples whose value
parses (`parseFloat _ = some _`). -/
def stateValOf (v : StateVal) : ℚ := (parseFloat v).getD 0

/-- A row of the `States` table. -/
structure StateRow where
  state_id : Nat
  metadata_id : Nat
  state : StateVal
  attributes : String
  last_changed_ts : Option ℚ
  last_updated_ts : Option ℚ
  old_state_id : Option Nat
deriving DecidableEq, Repr

/-- A row of the `StatesMeta` table (entity-id interning). -/
structure StatesMetaRow where
  metadata_id : Nat
  entity_id : String
deriving DecidableEq, Repr

/-- A row of the `StatisticsShortTerm` table (5-minute bucket). -/
structure StatisticsShortTermRow where
  id : Nat
  metadata_id : Nat
  start_ts : Option ℚ
  mean : Option ℚ
  min : Option ℚ
  max : Option ℚ
  sum : Option ℚ
  state : Option ℚ
  state_id : Option Nat
deriving DecidableEq, Repr

/-- A row of the `Statistics` table (hourly bucket). -/
structure StatisticsRow where
  id : Nat
  metadata_id : Nat
  start_ts : Option ℚ
  mean : Option ℚ
  min : Option ℚ
  max : Option ℚ
  sum : Option ℚ
  state : Option ℚ
deriving DecidableEq, Repr

/-- A row of the `StatisticsMeta` table. -/
structure StatisticsMetaRow where
  id : Nat
  statistic_id : String
deriving DecidableEq, Repr

/-- The recorder database as seen by the component. -/
structure DB where
  states : List StateRow
  states_meta : List StatesMetaRow
  stats_short : List StatisticsShortTermRow
  stats_long : List StatisticsRow
  stats_meta : List StatisticsMetaRow
deriving DecidableEq, Repr

/-- `statistic_type` request parameter. -/
inductive StatType where
  | longTerm
  | shortTerm
deriving DecidableEq, Repr

/-- Result of a record mutation (`{"success": ..}` dictionaries). -/
inductive RecOutcome where
  | notFound
  | success (state_id : Nat) (statistics_deleted : Nat)
  | failed
deriving DecidableEq, Repr

/-- Result of a statistics-row mutation. -/
inductive StatOutcome where
  | notFound
  | guardRejected
  | success (id : Nat)
deriving DecidableEq, Repr

/-- Instrumentation: one recorded invocation of a recomputation routine. -/
inductive RecomputeCall where
  | shortTerm (metaId : Nat) (entity_id : String) (start_ts : ℚ)
  | hourly (metaId : Nat) (start_ts : ℚ)
deriving DecidableEq, Repr

/-- Whether a recorded call is a short-term recomputation. -/
def RecomputeCall.isShort : RecomputeCall → Bool
  | .shortTerm _ _ _ => true
  | .hourly _ _ => false

/-- `float(int(ts // 300) * 300)`: the 5-minute bucket start of a timestamp. -/
def p5 (ts : ℚ) : ℚ := (⌊ts / 300⌋ : ℚ) * 300

/-- `float(int(ts // 3600) * 3600)`: the hourly bucket start of a timestamp. -/
def pHour (ts : ℚ) : ℚ := (⌊ts / 3600⌋ : ℚ) * 3600

/-- SQL window filter `lo <= ts AND ts < lo + len`; `NULL` compares false. -/
def tsInWindow : Option ℚ → ℚ → ℚ → Bool
  | some t, lo, len => decide (lo ≤ t ∧ t < lo + len)
  | none, _, _ => false

/-- Python `min(...)` of a list of floats (`none` on the empty list, which the
code never passes). -/
def pyMin : List ℚ → Option ℚ
  | [] => none
  | v :: vs => some (vs.foldl min v)

/-- Python `max(...)` of a list of floats. -/
def pyMax : List ℚ → Option ℚ
  | [] => none
  | v :: vs => some (vs.foldl max v)

/-- `sum(values) / len(values)`. -/
def pyMean (l : List ℚ) : ℚ := l.sum / (l.length : ℚ)

/-- In-place mutation of the first row matched by a query (`query.first()`
followed by attribute assignment): rewrite the first `p`-match with `f`. -/
def updateFirst (p : α → Bool) (f : α → α) : List α → List α
  | [] => []
  | x :: xs => if p x then f x :: xs else x :: updateFirst p f xs

/-- `stat.field = value if value is not None else unchanged`. -/
def override (new old : Option ℚ) : Option ℚ :=
  match new with
  | some v => some v
  | none => old

/-- Lexicographic order on (sort key, row id): the ordering an
`ORDER BY key ASC` query produces with rowid tie-breaking. -/
def qnLe (a b : ℚ × Nat) : Prop := a.1 < b.1 ∨ (a.1 = b.1 ∧ a.2 ≤ b.2)

instance : DecidableRel qnLe := fun a b =>
  inferInstanceAs (Decidable (a.1 < b.1 ∨ (a.1 = b.1 ∧ a.2 ≤ b.2)))

theorem qnLe_refl (a : ℚ × Nat) : qnLe a a := Or.inr ⟨rfl, le_refl _⟩

theorem qnLe_total (a b : ℚ × Nat) : qnLe a b ∨ qnLe b a := by
  rcases lt_trichotomy a.1 b.1 with h | h | h
  · exact Or.inl (Or.inl h)
  · rcases Nat.le_total a.2 b.2 with hn | hn
    · exact Or.inl (Or.inr ⟨h, hn⟩)
    · exact Or.inr (Or.inr ⟨h.symm, hn⟩)
  · exact Or.inr (Or.inl h)

theorem qnLe_trans {a b c : ℚ × Nat} (hab : qnLe a b) (hbc : qnLe b c) : qnLe a c := by
  rcases hab with h1 | ⟨e1, n1⟩
  · rcases hbc with h2 | ⟨e2, _⟩
    · exact Or.inl (h1.trans h2)
    · exact Or.inl (e2 ▸ h1)
  · rcases hbc with h2 | ⟨e2, n2⟩
    · exact Or.inl (e1 ▸ h2)
    · exact Or.inr ⟨e1.trans e2, n1.trans n2⟩

/-- Sort key of a `States` row under `ORDER BY last_updated_ts ASC`. -/
def stateKey (s : StateRow) : ℚ × Nat := (s.last_updated_ts.getD 0, s.state_id)

/-- Sort key of a short-term row under `ORDER BY start_ts ASC`. -/
def shortKey (r : StatisticsShortTermRow) : ℚ × Nat := (r.start_ts.getD 0, r.id)

/-- Row order of the states-in-period query. -/
def stateLe (a b : StateRow) : Prop := qnLe (stateKey a) (stateKey b)

/-- Row order of the short-terms-in-hour query. -/
def shortLe (a b : StatisticsShortTermRow) : Prop := qnLe (shortKey a) (shortKey b)

instance : DecidableRel stateLe := fun _ _ => inferInstanceAs (Decidable (qnLe _ _))

instance : DecidableRel shortLe := fun _ _ => inferInstanceAs (Decidable (qnLe _ _))

instance : IsTotal StateRow stateLe := ⟨fun _ _ => qnLe_total _ _⟩

instance : IsTrans StateRow stateLe := ⟨fun _ _ _ => qnLe_trans⟩

instance : IsTotal StatisticsShortTermRow shortLe := ⟨fun _ _ => qnLe_total _ _⟩

instance : IsTrans StatisticsShortTermRow shortLe := ⟨fun _ _ _ => qnLe_trans⟩

/-- The join `States JOIN StatesMeta ON metadata_id` filtered on
`StatesMeta.entity_id == entity_id`, as a predicate on the state row. -/
def entityMatch (db : DB) (s : StateRow) (entity_id : String) : Bool :=
  db.states_meta.any fun m => decide (m.metadata_id = s.metadata_id ∧ m.entity_id = entity_id)

/-- Filter of the recompute/guard queries: state rows of the entity whose
`last_updated_ts` lies in `[lo, lo + len)`. -/
def inPeriod (db : DB) (entity_id : String) (lo len : ℚ) (s : StateRow) : Bool :=
  entityMatch db s entity_id && tsInWindow s.last_updated_ts lo len

/-- The states-in-period query of `_recalculate_short_term_stat`:
entity join, 5-minute window filter, `ORDER BY last_updated_ts ASC`. -/
def statesInPeriod (db : DB) (entity_id : String) (start5 : ℚ) : List StateRow :=
  List.insertionSort stateLe (db.states.filter (inPeriod db entity_id start5 300))

/-- The samples of the period whose value parses as a float (the loop body
`try: v = float(s.state) ... except: pass` keeps exactly these). -/
def numericSamples (db : DB) (entity_id : String) (start5 : ℚ) : List StateRow :=
  (statesInPeriod db entity_id start5).filter fun s => (parseFloat s.state).isSome

/-- `numeric_values`: the parsed values, in query order. -/
def numericValues (db : DB) (entity_id : String) (start5 : ℚ) : List ℚ :=
  (numericSamples db entity_id start5).map fun s => stateValOf s.state

/-- Key predicate of the short-term bucket lookup
`metadata_id == stat_meta_id AND start_ts == start_ts_5min`. -/
def shortRowMatch (metaId : Nat) (start5 : ℚ) (r : StatisticsShortTermRow) : Bool :=
  decide (r.metadata_id = metaId ∧ r.start_ts = some start5)

/-- Key predicate of the hourly bucket lookup. -/
def longRowMatch (metaId : Nat) (startH : ℚ) (r : StatisticsRow) : Bool :=
  decide (r.metadata_id = metaId ∧ r.start_ts = some startH)

/-- `_recalculate_short_term_stat`: recompute the 5-minute bucket
`(stat_meta_id, start_ts_5min)` from the raw samples of `entity_id` in the
window.  Returns the new database and whether a bucket row existed. -/
def recalculate_short_term_stat (db : DB) (stat_meta_id : Nat) (entity_id : String)
    (start_ts_5min : ℚ) : DB × Bool :=
  let ns := numericSamples db entity_id start_ts_5min
  let vs := numericValues db entity_id start_ts_5min
  match db.stats_short.find? (shortRowMatch stat_meta_id start_ts_5min) with
  | none => (db, false)
  | some _ =>
      if ns.isEmpty then (db, true)
      else
        ({ db with
            stats_short := updateFirst (shortRowMatch stat_meta_id start_ts_5min)
              (fun r => { r with
                  mean := some (pyMean vs)
                  min := pyMin vs
                  max := pyMax vs
                  state := ns.getLast?.map fun s => stateValOf s.state
                  state_id := ns.getLast?.map StateRow.state_id })
              db.stats_short }, true)

/-- The short-terms-in-hour query of `_recalculate_long_term_stat`:
`metadata_id == stat_meta_id AND start_ts ∈ [hour, hour+3600)`,
`ORDER BY start_ts ASC`. -/
def shortTermsInHour (db : DB) (stat_meta_id : Nat) (start_ts_hour : ℚ) :
    List StatisticsShortTermRow :=
  List.insertionSort shortLe
    (db.stats_short.filter fun r =>
      decide (r.metadata_id = stat_meta_id) && tsInWindow r.start_ts start_ts_hour 3600)

/-- `_recalculate_long_term_stat`: recompute the hourly bucket
`(stat_meta_id, start_ts_hour)` from its short-term buckets.  Returns the new
database and whether a row was updated. -/
def recalculate_long_term_stat (db : DB) (stat_meta_id : Nat) (start_ts_hour : ℚ) :
    DB × Bool :=
  let sts := shortTermsInHour db stat_meta_id start_ts_hour
  if sts.isEmpty then (db, false)
  else
    match db.stats_long.find? (longRowMatch stat_meta_id start_ts_hour) with
    | none => (db, false)
    | some _ =>
        let means := sts.filterMap StatisticsShortTermRow.mean
        let mins := sts.filterMap StatisticsShortTermRow.min
        let maxs := sts.filterMap StatisticsShortTermRow.max
        let lasts := sts.filterMap StatisticsShortTermRow.state
        ({ db with
            stats_long := updateFirst (longRowMatch stat_meta_id start_ts_hour)
              (fun r => { r with
                  mean := if means.isEmpty then r.mean else some (pyMean means)
                  min := if mins.isEmpty then r.min else pyMin mins
                  max := if maxs.isEmpty then r.max else pyMax maxs
                  state := if lasts.isEmpty then r.state else lasts.getLast? })
              db.stats_long }, true)

/-- `affected_5min.add(p5)` for a Python `set`: insert without duplicating. -/
def insertNew (x : ℚ) (l : List ℚ) : List ℚ := if x ∈ l then l else l ++ [x]

/-- The `affected_5min` set built by `_add_periods` on the old timestamp (if
known) and then the new timestamp (if known). -/
def affected5min (old_ts new_ts : Option ℚ) : List ℚ :=
  let l := match old_ts with
    | some t => [p5 t]
    | none => []
  match new_ts with
  | some t => insertNew (p5 t) l
  | none => l

/-- The `affected_hour` set built by the same two `_add_periods` calls. -/
def affectedHour (old_ts new_ts : Option ℚ) : List ℚ :=
  let l := match old_ts with
    | some t => [pHour t]
    | none => []
  match new_ts with
  | some t => insertNew (pHour t) l
  | none => l

/-- The loop `for start_ts in affected_5min: _recalculate_short_term_stat(...)`. -/
def runShortRecalcs (stat_meta_id : Nat) (entity_id : String) :
    List ℚ → DB → DB
  | [], db => db
  | s :: rest, db =>
      runShortRecalcs stat_meta_id entity_id rest
        (recalculate_short_term_stat db stat_meta_id entity_id s).1

/-- The loop `for start_ts in affected_hour: _recalculate_long_term_stat(...)`. -/
def runLongRecalcs (stat_meta_id : Nat) : List ℚ → DB → DB
  | [], db => db
  | h :: rest, db =>
      runLongRecalcs stat_meta_id rest (recalculate_long_term_stat db stat_meta_id h).1

/-- `_update_statistics_after_state_change`: determine the affected 5-minute
and hourly periods from the prior and current `last_updated_ts` of the edited
record, recompute every affected short-term bucket, then every affected
hourly bucket.  Also returns the list of recomputation calls performed, in
order (the instrumentation used by the theorems below). -/
def update_statistics_after_state_change (db : DB) (state_record : StateRow)
    (old_ts : Option ℚ) (new_last_updated : Option ℚ) : DB × List RecomputeCall :=
  let new_ts : Option ℚ :=
    match new_last_updated with
    | some t => some t
    | none => state_record.last_updated_ts
  let a5 := affected5min old_ts new_ts
  let ah := affectedHour old_ts new_ts
  if a5.isEmpty then (db, [])
  else
    match db.states_meta.find?
        (fun m => decide (m.metadata_id = state_record.metadata_id)) with
    | none => (db, [])
    | some meta =>
        match db.stats_meta.find? (fun sm => decide (sm.statistic_id = meta.entity_id)) with
        | none => (db, [])
        | some stat_meta =>
            let db1 := runShortRecalcs stat_meta.id meta.entity_id a5 db
            let db2 := runLongRecalcs stat_meta.id ah db1
            (db2, a5.map (RecomputeCall.shortTerm stat_meta.id meta.entity_id)
              ++ ah.map (RecomputeCall.hourly stat_meta.id))

/-- The field assignments of `_update_record_sync` on the target row. -/
def applySampleEdit (new_state : Option StateVal) (new_attributes : Option String)
    (new_last_changed new_last_updated : Option ℚ) (s : StateRow) : StateRow :=
  { s with
    state := new_state.getD s.state
    attributes := new_attributes.getD s.attributes
    last_changed_ts := override new_last_changed s.last_changed_ts
    last_updated_ts := override new_last_updated s.last_updated_ts }

/-- The database as committed by the primary mutation of `_update_record_sync`
(the first `session.commit()`). -/
def primaryCommit (db : DB) (state_id : Nat) (new_state : Option StateVal)
    (new_attributes : Option String) (new_last_changed new_last_updated : Option ℚ) : DB :=
  { db with
    states := updateFirst (fun s => decide (s.state_id = state_id))
      (applySampleEdit new_state new_attributes new_last_changed new_last_updated)
      db.states }

/-- `_update_record_sync`, parametric in the statistics-cascade step so that a
data-layer failure inside the cascade (the `except` branch that logs a
warning) is a real case: a `.error` from `cascade` leaves the committed
primary mutation in place and the call still reports success. -/
def update_record_sync_with
    (cascade : DB → StateRow → Option ℚ → Option ℚ → Except String (DB × List RecomputeCall))
    (db : DB) (state_id : Nat) (new_state : Option StateVal)
    (new_attributes : Option String) (new_last_changed new_last_updated : Option ℚ) :
    DB × RecOutcome × List RecomputeCall :=
  match db.states.find? (fun s => decide (s.state_id = state_id)) with
  | none => (db, .notFound, [])
  | some st =>
      let old_ts := st.last_updated_ts
      let st1 := applySampleEdit new_state new_attributes new_last_changed new_last_updated st
      let db1 := primaryCommit db state_id new_state new_attributes
        new_last_changed new_last_updated
      if new_state.isSome || new_last_updated.isSome then
        match cascade db1 st1 old_ts new_last_updated with
        | .ok (db2, calls) => (db2, .success state_id 0, calls)
        | .error _ => (db1, .success state_id 0, [])
      else (db1, .success state_id 0, [])

/-- `_update_record_sync` with the actual statistics cascade. -/
def update_record_sync (db : DB) (state_id : Nat) (new_state : Option StateVal)
    (new_attributes : Option String) (new_last_changed new_last_updated : Option ℚ) :
    DB × RecOutcome × List RecomputeCall :=
  update_record_sync_with
    (fun d rec old nlu => .ok (update_statistics_after_state_change d rec old nlu))
    db state_id new_state new_attributes new_last_changed new_last_updated

/-- The `update({"old_state_id": None})` step of `_delete_record_sync` on one
row: clear a backward reference to the row being deleted. -/
def clearRef (state_id : Nat) (s : StateRow) : StateRow :=
  if s.old_state_id = some state_id then { s with old_state_id := none } else s

/-- `_delete_record_sync`.  `stats_delete_ok` models the try/except around the
deletion of associated short-term statistics: when `false`, that step raised,
was logged, and the state deletion continues with `stats_deleted = 0`. -/
def delete_record_sync (stats_delete_ok : Bool) (db : DB) (state_id : Nat) :
    DB × RecOutcome :=
  match db.states.find? (fun s => decide (s.state_id = state_id)) with
  | none => (db, .notFound)
  | some _ =>
      let db1 : DB := { db with states := db.states.map (clearRef state_id) }
      let stats_deleted : Nat :=
        if stats_delete_ok then
          (db1.stats_short.filter fun r => decide (r.state_id = some state_id)).length
        else 0
      let db2 : DB :=
        if stats_delete_ok then
          { db1 with
            stats_short := db1.stats_short.filter fun r => !decide (r.state_id = some state_id) }
        else db1
      let deleted_count : Nat :=
        (db2.states.filter fun s => decide (s.state_id = state_id)).length
      let db3 : DB := { db2 with
        states := db2.states.filter fun s => !decide (s.state_id = state_id) }
      if deleted_count > 0 then (db3, .success state_id stats_deleted)
      else (db3, .failed)

/-- `_create_record_sync`: get-or-create the `StatesMeta` row for the entity,
then insert the new state row.  Fresh identifiers (autoincrement) are supplied
by the caller of the model. -/
def create_record_sync (db : DB) (fresh_meta_id fresh_state_id : Nat)
    (entity_id : String) (state : StateVal) (attributes : String)
    (last_changed last_updated : Option ℚ) : DB × Nat :=
  let metaPair : DB × Nat :=
    match db.states_meta.find? (fun m => decide (m.entity_id = entity_id)) with
    | some m => (db, m.metadata_id)
    | none =>
        ({ db with states_meta := db.states_meta ++
            [{ metadata_id := fresh_meta_id, entity_id := entity_id }] },
          fresh_meta_id)
  let db1 := metaPair.1
  let metaId := metaPair.2
  ({ db1 with
      states := db1.states ++
        [{ state_id := fresh_state_id, metadata_id := metaId, state := state,
           attributes := attributes, last_changed_ts := last_changed,
           last_updated_ts := last_updated, old_state_id := none }] },
    fresh_state_id)

/-- Guard of the short-term statistic edit/delete: raw state rows of the
statistic's entity exist with `last_updated_ts` in the bucket's 5-minute
window (the check is skipped when `start_ts` is `NULL` or the
`StatisticsMeta` row is missing). -/
def shortStatHasSourceData (db : DB) (stat : StatisticsShortTermRow) : Bool :=
  match stat.start_ts with
  | none => false
  | some s0 =>
      match db.stats_meta.find? (fun m => decide (m.id = stat.metadata_id)) with
      | none => false
      | some sm => db.states.any (inPeriod db sm.statistic_id s0 300)

/-- Guard of the hourly statistic edit/delete: short-term rows of the same
metadata id exist with `start_ts` in the bucket's 1-hour window. -/
def longStatHasSourceData (db : DB) (stat : StatisticsRow) : Bool :=
  match stat.start_ts with
  | none => false
  | some s0 =>
      db.stats_short.any fun r =>
        decide (r.metadata_id = stat.metadata_id) && tsInWindow r.start_ts s0 3600

/-- The field assignments of `_update_statistic_sync` on a short-term row. -/
def applyShortStatEdit (mean min_val max_val sum_val state start : Option ℚ)
    (r : StatisticsShortTermRow) : StatisticsShortTermRow :=
  { r with
    mean := override mean r.mean
    min := override min_val r.min
    max := override max_val r.max
    sum := override sum_val r.sum
    state := override state r.state
    start_ts := override start r.start_ts }

/-- The field assignments of `_update_statistic_sync` on an hourly row. -/
def applyLongStatEdit (mean min_val max_val sum_val state start : Option ℚ)
    (r : StatisticsRow) : StatisticsRow :=
  { r with
    mean := override mean r.mean
    min := override min_val r.min
    max := override max_val r.max
    sum := override sum_val r.sum
    state := override state r.state
    start_ts := override start r.start_ts }

/-- `_update_statistic_sync`: guarded direct edit of a rollup row, with the
cascade recomputation of the containing hourly bucket after a short-term
edit.  The third component records the cascade calls performed. -/
def update_statistic_sync (db : DB) (stat_id : Nat)
    (mean min_val max_val sum_val state start : Option ℚ) (statistic_type : StatType) :
    DB × StatOutcome × List RecomputeCall :=
  match statistic_type with
  | .shortTerm =>
      match db.stats_short.find? (fun r => decide (r.id = stat_id)) with
      | none => (db, .notFound, [])
      | some stat =>
          if shortStatHasSourceData db stat then (db, .guardRejected, [])
          else
            let stat1 := applyShortStatEdit mean min_val max_val sum_val state start stat
            let db1 := { db with
              stats_short := updateFirst (fun r => decide (r.id = stat_id))
                (applyShortStatEdit mean min_val max_val sum_val state start)
                db.stats_short }
            match stat1.start_ts with
            | none => (db1, .success stat_id, [])
            | some effective_ts =>
                let start_ts_hour := pHour effective_ts
                ((recalculate_long_term_stat db1 stat.metadata_id start_ts_hour).1,
                  .success stat_id, [.hourly stat.metadata_id start_ts_hour])
  | .longTerm =>
      match db.stats_long.find? (fun r => decide (r.id = stat_id)) with
      | none => (db, .notFound, [])
      | some stat =>
          if longStatHasSourceData db stat then (db, .guardRejected, [])
          else
            ({ db with
                stats_long := updateFirst (fun r => decide (r.id = stat_id))
                  (applyLongStatEdit mean min_val max_val sum_val state start)
                  db.stats_long }, .success stat_id, [])

/-- `_delete_statistic_sync`: guarded direct delete of a rollup row, with the
cascade recomputation of the containing hourly bucket after a short-term
delete (the bucket start is captured before the deletion). -/
def delete_statistic_sync (db : DB) (stat_id : Nat) (statistic_type : StatType) :
    DB × StatOutcome × List RecomputeCall :=
  match statistic_type with
  | .shortTerm =>
      match db.stats_short.find? (fun r => decide (r.id = stat_id)) with
      | none => (db, .notFound, [])
      | some stat =>
          if shortStatHasSourceData db stat then (db, .guardRejected, [])
          else
            let deleted_count := (db.stats_short.filter fun r => decide (r.id = stat_id)).length
            let db1 := { db with
              stats_short := db.stats_short.filter fun r => !decide (r.id = stat_id) }
            if deleted_count > 0 then
              match stat.start_ts with
              | some s0 =>
                  let start_ts_hour := pHour s0
                  ((recalculate_long_term_stat db1 stat.metadata_id start_ts_hour).1,
                    .success stat_id, [.hourly stat.metadata_id start_ts_hour])
              | none => (db1, .success stat_id, [])
            else (db1, .notFound, [])
  | .longTerm =>
      match db.stats_long.find? (fun r => decide (r.id = stat_id)) with
      | none => (db, .notFound, [])
      | some stat =>
          if longStatHasSourceData db stat then (db, .guardRejected, [])
          else
            let deleted_count := (db.stats_long.filter fun r => decide (r.id = stat_id)).length
            let db1 := { db with
              stats_long := db.stats_long.filter fun r => !decide (r.id = stat_id) }
            if deleted_count > 0 then (db1, .success stat_id, [])
            else (db1, .notFound, [])

/-! ### Helper lemmas -/

theorem updateFirst_find? {α : Type} {p : α → Bool} {f : α → α}
    (hf : ∀ a, p a = true → p (f a) = true) :
    ∀ l : List α, (updateFirst p f l).find? p = (l.find? p).map f := by
  intro l
  induction l with
  | nil => rfl
  | cons x xs ih =>
      by_cases hx : p x = true
      · rw [updateFirst, if_pos hx, List.find?_cons_of_pos _ (hf x hx),
          List.find?_cons_of_pos _ hx, Option.map_some']
      · have hx' : ¬p x = true := hx
        rw [updateFirst, if_neg hx', List.find?_cons_of_neg _ hx',
          List.find?_cons_of_neg _ hx', ih]

theorem updateFirst_mem {α : Type} {p : α → Bool} {f : α → α} :
    ∀ {l : List α} {x : α}, x ∈ updateFirst p f l → x ∈ l ∨ ∃ y, y ∈ l ∧ x = f y := by
  intro l
  induction l with
  | nil => intro x hx; exact absurd hx (List.not_mem_nil x)
  | cons a t ih =>
      intro x hx
      rw [updateFirst] at hx
      by_cases ha : p a = true
      · rw [if_pos ha] at hx
        rcases List.mem_cons.mp hx with rfl | hx'
        · exact Or.inr ⟨a, List.mem_cons_self a t, rfl⟩
        · exact Or.inl (List.mem_cons_of_mem a hx')
      · rw [if_neg ha] at hx
        rcases List.mem_cons.mp hx with rfl | hx'
        · exact Or.inl (List.mem_cons_self x t)
        · rcases ih hx' with h | ⟨y, hy, rfl⟩
          · exact Or.inl (List.mem_cons_of_mem a h)
          · exact Or.inr ⟨y, List.mem_cons_of_mem a hy, rfl⟩

theorem foldl_min_le_init : ∀ (l : List ℚ) (v : ℚ), l.foldl min v ≤ v := by
  intro l
  induction l with
  | nil => intro v; exact le_refl v
  | cons a t ih => intro v; exact (ih (min v a)).trans (min_le_left v a)

theorem foldl_min_le_mem : ∀ (l : List ℚ) (v x : ℚ), x ∈ l → l.foldl min v ≤ x := by
  intro l
  induction l with
  | nil => intro v x hx; exact absurd hx (List.not_mem_nil x)
  | cons a t ih =>
      intro v x hx
      rcases List.mem_cons.mp hx with rfl | hx'
      · exact (foldl_min_le_init t (min v x)).trans (min_le_right v x)
      · exact ih (min v a) x hx'

theorem foldl_min_mem : ∀ (l : List ℚ) (v : ℚ), l.foldl min v = v ∨ l.foldl min v ∈ l := by
  intro l
  induction l with
  | nil => intro v; exact Or.inl rfl
  | cons a t ih =>
      intro v
      have hred : (a :: t).foldl min v = t.foldl min (min v a) := rfl
      rcases ih (min v a) with h | h
      · rcases min_choice v a with hm | hm
        · exact Or.inl (by rw [hred, h, hm])
        · refine Or.inr ?_
          rw [hred, h, hm]
          exact List.mem_cons_self a t
      · refine Or.inr ?_
        rw [hred]
        exact List.mem_cons_of_mem a h

theorem foldl_max_init_le : ∀ (l : List ℚ) (v : ℚ), v ≤ l.foldl max v := by
  intro l
  induction l with
  | nil => intro v; exact le_refl v
  | cons a t ih => intro v; exact (le_max_left v a).trans (ih (max v a))

theorem foldl_max_mem_le : ∀ (l : List ℚ) (v x : ℚ), x ∈ l → x ≤ l.foldl max v := by
  intro l
  induction l with
  | nil => intro v x hx; exact absurd hx (List.not_mem_nil x)
  | cons a t ih =>
      intro v x hx
      rcases List.mem_cons.mp hx with rfl | hx'
      · exact (le_max_right v x).trans (foldl_max_init_le t (max v x))
      · exact ih (max v a) x hx'

theorem foldl_max_mem : ∀ (l : List ℚ) (v : ℚ), l.foldl max v = v ∨ l.foldl max v ∈ l := by
  intro l
  induction l with
  | nil => intro v; exact Or.inl rfl
  | cons a t ih =>
      intro v
      have hred : (a :: t).foldl max v = t.foldl max (max v a) := rfl
      rcases ih (max v a) with h | h
      · rcases max_choice v a with hm | hm
        · exact Or.inl (by rw [hred, h, hm])
        · refine Or.inr ?_
          rw [hred, h, hm]
          exact List.mem_cons_self a t
      · refine Or.inr ?_
        rw [hred]
        exact List.mem_cons_of_mem a h

theorem pyMin_le {l : List ℚ} {m : ℚ} (h : pyMin l = some m) : ∀ x ∈ l, m ≤ x := by
  cases l with
  | nil => exact absurd h (by simp [pyMin])
  | cons v vs =>
      have hm : vs.foldl min v = m := by
        have := h
        rw [pyMin] at this
        exact Option.some.inj this
      intro x hx
      rcases List.mem_cons.mp hx with rfl | hx'
      · exact hm ▸ foldl_min_le_init vs x
      · exact hm ▸ foldl_min_le_mem vs v x hx'

theorem pyMin_mem {l : List ℚ} {m : ℚ} (h : pyMin l = some m) : m ∈ l := by
  cases l with
  | nil => exact absurd h (by simp [pyMin])
  | cons v vs =>
      have hm : vs.foldl min v = m := by
        have := h
        rw [pyMin] at this
        exact Option.some.inj this
      rcases foldl_min_mem vs v with h' | h'
      · exact (hm ▸ h') ▸ List.mem_cons_self v vs
      · exact List.mem_cons_of_mem v (hm ▸ h')

theorem pyMax_le {l : List ℚ} {m : ℚ} (h : pyMax l = some m) : ∀ x ∈ l, x ≤ m := by
  cases l with
  | nil => exact absurd h (by simp [pyMax])
  | cons v vs =>
      have hm : vs.foldl max v = m := by
        have := h
        rw [pyMax] at this
        exact Option.some.inj this
      intro x hx
      rcases List.mem_cons.mp hx with rfl | hx'
      · exact hm ▸ foldl_max_init_le vs x
      · exact hm ▸ foldl_max_mem_le vs v x hx'

theorem pyMax_mem {l : List ℚ} {m : ℚ} (h : pyMax l = some m) : m ∈ l := by
  cases l with
  | nil => exact absurd h (by simp [pyMax])
  | cons v vs =>
      have hm : vs.foldl max v = m := by
        have := h
        rw [pyMax] at this
        exact Option.some.inj this
      rcases foldl_max_mem vs v with h' | h'
      · exact (hm ▸ h') ▸ List.mem_cons_self v vs
      · exact List.mem_cons_of_mem v (hm ▸ h')

theorem getLast?_mem' {α : Type} : ∀ {l : List α} {x : α}, l.getLast? = some x → x ∈ l := by
  intro l
  induction l with
  | nil => intro x h; exact absurd h (by simp)
  | cons a t ih =>
      intro x h
      cases t with
      | nil =>
          have : x = a := by
            simp [List.getLast?] at h
            exact h.symm
          exact this ▸ List.mem_cons_self a []
      | cons b t' =>
          rw [List.getLast?_cons_cons] at h
          exact List.mem_cons_of_mem a (ih h)

theorem pairwise_getLast?_max {α : Type} {R : α → α → Prop} (hrefl : ∀ a, R a a) :
    ∀ {l : List α} {x : α}, l.Pairwise R → l.getLast? = some x → ∀ y ∈ l, R y x := by
  intro l
  induction l with
  | nil => intro x _ h; exact absurd h (by simp)
  | cons a t ih =>
      intro x hp hl y hy
      cases t with
      | nil =>
          have hx : x = a := by
            simp [List.getLast?] at hl
            exact hl.symm
          have hy' : y = a := by
            rcases List.mem_cons.mp hy with h | h
            · exact h
            · exact absurd h (List.not_mem_nil y)
          exact hx ▸ hy' ▸ hrefl a
      | cons b t' =>
          rw [List.getLast?_cons_cons] at hl
          rcases List.mem_cons.mp hy with rfl | hy'
          · exact (List.pairwise_cons.mp hp).1 x (getLast?_mem' hl)
          · exact ih (List.pairwise_cons.mp hp).2 hl y hy'

theorem filterMap_getLast?_max {α β : Type} {R : α → α → Prop} (hrefl : ∀ a, R a a)
    (g : α → Option β) :
    ∀ {l : List α} {v : β}, l.Pairwise R → (l.filterMap g).getLast? = some v →
      ∃ x, x ∈ l ∧ g x = some v ∧ ∀ y ∈ l, (g y).isSome = true → R y x := by
  intro l
  induction l with
  | nil => intro v _ h; exact absurd h (by simp)
  | cons a t ih =>
      intro v hp hl
      rw [List.filterMap_cons] at hl
      cases hga : g a with
      | none =>
          rw [hga] at hl
          rcases ih (List.pairwise_cons.mp hp).2 hl with ⟨x, hx, hgx, hall⟩
          refine ⟨x, List.mem_cons_of_mem a hx, hgx, ?_⟩
          intro y hy hsome
          rcases List.mem_cons.mp hy with rfl | hy'
          · rw [hga] at hsome; exact absurd hsome (by simp)
          · exact hall y hy' hsome
      | some b =>
          rw [hga] at hl
          cases ht : t.filterMap g with
          | nil =>
              rw [ht] at hl
              have hbv : b = v := by
                simp [List.getLast?] at hl
                exact hl
              refine ⟨a, List.mem_cons_self a t, hbv ▸ hga, ?_⟩
              intro y hy hsome
              rcases List.mem_cons.mp hy with rfl | hy'
              · exact hrefl y
              · have : g y = none := (List.filterMap_eq_nil_iff.mp ht) y hy'
                rw [this] at hsome
                exact absurd hsome (by simp)
          | cons c L =>
              rw [ht, List.getLast?_cons_cons] at hl
              rcases ih (List.pairwise_cons.mp hp).2 (ht ▸ hl) with ⟨x, hx, hgx, hall⟩
              refine ⟨x, List.mem_cons_of_mem a hx, hgx, ?_⟩
              intro y hy hsome
              rcases List.mem_cons.mp hy with rfl | hy'
              · exact (List.pairwise_cons.mp hp).1 x hx
              · exact hall y hy' hsome

/-! ### Example databases used by the witnesses and counterexamples -/

/-- A sample of entity metadata 1 with a given identifier, value and
timestamp. -/
def mkSample (i : Nat) (v : StateVal) (ts : ℚ) : StateRow :=
  { state_id := i, metadata_id := 1, state := v, attributes := "{}",
    last_changed_ts := some ts, last_updated_ts := some ts, old_state_id := none }

/-- A pre-existing short-term bucket row `(metadata 7, start 0)` holding stale
aggregates. -/
def exShortRow : StatisticsShortTermRow :=
  { id := 1, metadata_id := 7, start_ts := some 0, mean := some 99, min := some 99,
    max := some 99, sum := none, state := some 99, state_id := some 50 }

/-- Database of the `[10, 20, 30]` example: three numeric samples of
`sensor.x` inside the 5-minute window starting at 0, one short-term bucket. -/
def exDb1 : DB :=
  { states := [mkSample 1 (.num 10) 10, mkSample 2 (.num 20) 20, mkSample 3 (.num 30) 30],
    states_meta := [{ metadata_id := 1, entity_id := "sensor.x" }],
    stats_short := [exShortRow],
    stats_long := [],
    stats_meta := [{ id := 7, statistic_id := "sensor.x" }] }

/-- Database with only non-numeric samples in the window of the bucket. -/
def exDb5 : DB :=
  { states := [mkSample 1 (.txt "on") 10, mkSample 2 (.txt "off") 20],
    states_meta := [{ metadata_id := 1, entity_id := "sensor.x" }],
    stats_short := [exShortRow],
    stats_long := [],
    stats_meta := [{ id := 7, statistic_id := "sensor.x" }] }

/-! ### C5 -/

/-- C5: a short-term recomputation over a window with zero numerically
parseable samples leaves the existing bucket row — mean, min, max, last
value and last-value sample reference — and indeed the whole database
untouched, while still reporting that a row existed (`true`). -/
theorem short_term_recompute_no_numeric_is_noop (db : DB) (metaId : Nat) (eid : String)
    (s5 : ℚ) (r : StatisticsShortTermRow)
    (hrow : db.stats_short.find? (shortRowMatch metaId s5) = some r)
    (hns : numericSamples db eid s5 = []) :
    recalculate_short_term_stat db metaId eid s5 = (db, true) := by
  unfold recalculate_short_term_stat
  rw [hrow, hns]
  rfl

/-- Witness for C5: on `exDb5` (two non-numeric samples in the window) the
recomputation completes and the stale aggregates of the bucket survive. -/
theorem short_term_recompute_no_numeric_instance :
    recalculate_short_term_stat exDb5 7 "sensor.x" 0 = (exDb5, true) ∧
    (recalculate_short_term_stat exDb5 7 "sensor.x" 0).1.stats_short = [exShortRow] :=
  ⟨short_term_recompute_no_numeric_is_noop exDb5 7 "sensor.x" 0 exShortRow
      (by with_unfolding_all rfl) (by with_unfolding_all rfl),
    by with_unfolding_all rfl⟩

/-! ### C1 -/

/-- The aggregate assignments performed on the bucket row by
`_recalculate_short_term_stat` when numeric values exist. -/
def shortAggUpdate (db : DB) (eid : String) (s5 : ℚ) (q : StatisticsShortTermRow) :
    StatisticsShortTermRow :=
  { q with
    mean := some (pyMean (numericValues db eid s5))
    min := pyMin (numericValues db eid s5)
    max := pyMax (numericValues db eid s5)
    state := (numericSamples db eid s5).getLast?.map fun s => stateValOf s.state
    state_id := (numericSamples db eid s5).getLast?.map StateRow.state_id }

/-- Evaluation of the short-term recomputation in the updating case: a bucket
row exists and at least one sample in the window parses. -/
theorem recalc_short_eval (db : DB) (metaId : Nat) (eid : String) (s5 : ℚ)
    (r : StatisticsShortTermRow)
    (hrow : db.stats_short.find? (shortRowMatch metaId s5) = some r)
    (hne : numericSamples db eid s5 ≠ []) :
    recalculate_short_term_stat db metaId eid s5 =
      ({ db with
          stats_short :=
            updateFirst (shortRowMatch metaId s5) (shortAggUpdate db eid s5)
              db.stats_short }, true) := by
  have hne' : ¬((numericSamples db eid s5).isEmpty = true) := fun h =>
    hne (List.isEmpty_iff.mp h)
  unfold recalculate_short_term_stat
  rw [hrow]
  simp only [if_neg hne']
  rfl

/-- C1: when a short-term bucket row exists for `(metaId, s5)` and the window
`[s5, s5+300)` holds at least one sample of the entity with a parseable
value, the recomputation reports `true` and sets the bucket's mean to the
arithmetic mean of the parsed values, min/max to their extrema, last value
and last-value sample reference to the value and identifier of the
chronologically last contributing sample (ties in `last_updated_ts` broken
by highest identifier); non-parsing samples contribute to none of the
aggregates, and the raw-sample and hourly tables are untouched. -/
theorem short_term_recompute_sets_aggregates (db : DB) (metaId : Nat) (eid : String)
    (s5 : ℚ) (r : StatisticsShortTermRow)
    (hrow : db.stats_short.find? (shortRowMatch metaId s5) = some r)
    (hne : numericSamples db eid s5 ≠ []) :
    (recalculate_short_term_stat db metaId eid s5).2 = true ∧
    ∃ r', (recalculate_short_term_stat db metaId eid s5).1.stats_short.find?
        (shortRowMatch metaId s5) = some r' ∧
      r'.mean = some ((numericValues db eid s5).sum /
        ((numericValues db eid s5).length : ℚ)) ∧
      (∃ mn, r'.min = some mn ∧ mn ∈ numericValues db eid s5 ∧
        ∀ v ∈ numericValues db eid s5, mn ≤ v) ∧
      (∃ mx, r'.max = some mx ∧ mx ∈ numericValues db eid s5 ∧
        ∀ v ∈ numericValues db eid s5, v ≤ mx) ∧
      (∃ slast, slast ∈ numericSamples db eid s5 ∧
        r'.state = some (stateValOf slast.state) ∧
        r'.state_id = some slast.state_id ∧
        ∀ s ∈ numericSamples db eid s5, stateLe s slast) ∧
      (recalculate_short_term_stat db metaId eid s5).1.states = db.states ∧
      (recalculate_short_term_stat db metaId eid s5).1.stats_long = db.stats_long := by
  rw [recalc_short_eval db metaId eid s5 r hrow hne]
  refine ⟨rfl, ?_⟩
  have hpres : ∀ a, shortRowMatch metaId s5 a = true →
      shortRowMatch metaId s5 (shortAggUpdate db eid s5 a) = true := by
    intro a ha
    simpa [shortRowMatch, shortAggUpdate] using ha
  obtain ⟨s0, tl, hcons⟩ := List.exists_cons_of_ne_nil hne
  have hvcons : numericValues db eid s5 =
      stateValOf s0.state :: tl.map (fun s => stateValOf s.state) := by
    unfold numericValues
    rw [hcons, List.map_cons]
  obtain ⟨mn, hmn⟩ : ∃ mn, pyMin (numericValues db eid s5) = some mn := by
    rw [hvcons, pyMin]
    exact ⟨_, rfl⟩
  obtain ⟨mx, hmx⟩ : ∃ mx, pyMax (numericValues db eid s5) = some mx := by
    rw [hvcons, pyMax]
    exact ⟨_, rfl⟩
  have hlast : (numericSamples db eid s5).getLast? =
      some ((numericSamples db eid s5).getLast hne) :=
    List.getLast?_eq_getLast _ hne
  have hpw : (numericSamples db eid s5).Pairwise stateLe := by
    unfold numericSamples
    exact (List.sorted_insertionSort stateLe _).filter _
  refine ⟨shortAggUpdate db eid s5 r, ?_, rfl, ?_, ?_, ?_, rfl, rfl⟩
  · simp only [updateFirst_find? hpres, hrow, Option.map_some']
  · exact ⟨mn, hmn, pyMin_mem hmn, pyMin_le hmn⟩
  · exact ⟨mx, hmx, pyMax_mem hmx, pyMax_le hmx⟩
  · refine ⟨(numericSamples db eid s5).getLast hne, List.getLast_mem hne, ?_, ?_, ?_⟩
    · simp only [shortAggUpdate, hlast, Option.map_some']
    · simp only [shortAggUpdate, hlast, Option.map_some']
    · exact fun s hs =>
        pairwise_getLast?_max (fun a => qnLe_refl (stateKey a)) hpw hlast s hs

/-- Witness for C1: on the `[10, 20, 30]` database the recomputation yields
mean 20, min 10, max 30, last value 30 and last-value reference 3 (the
chronologically last sample), by the theorem applied at this input. -/
theorem short_term_recompute_aggregates_instance :
    (recalculate_short_term_stat exDb1 7 "sensor.x" 0).2 = true ∧
    (recalculate_short_term_stat exDb1 7 "sensor.x" 0).1.stats_short =
      [{ exShortRow with
          mean := some 20
          min := some 10
          max := some 30
          state := some 30
          state_id := some 3 }] :=
  ⟨(short_term_recompute_sets_aggregates exDb1 7 "sensor.x" 0 exShortRow
      (by with_unfolding_all rfl) (by with_unfolding_all decide)).1,
    by with_unfolding_all rfl⟩

/-! ### C2 -/

/-- Short-term bucket with the low start and a last value but no mean. -/
def exShortA : StatisticsShortTermRow :=
  { id := 1, metadata_id := 7, start_ts := some 0, mean := none, min := none,
    max := none, sum := none, state := some 5, state_id := none }

/-- Short-term bucket with the greatest start in the hour, a mean but no last
value. -/
def exShortB : StatisticsShortTermRow :=
  { id := 2, metadata_id := 7, start_ts := some 300, mean := some 8, min := none,
    max := none, sum := none, state := none, state_id := none }

/-- Hourly bucket row for `(metadata 7, start 0)` with stale last value. -/
def exLongRow : StatisticsRow :=
  { id := 10, metadata_id := 7, start_ts := some 0, mean := none,
    min := none, max := none, sum := none, state := some 99 }

/-- Database where the greatest-start short-term bucket of the hour has no
state value while an earlier bucket has one. -/
def exDb2 : DB :=
  { states := [], states_meta := [], stats_short := [exShortA, exShortB],
    stats_long := [exLongRow], stats_meta := [] }

/-- The aggregate assignments performed on the hourly row by
`_recalculate_long_term_stat`. -/
def longAggUpdate (db : DB) (metaId : Nat) (startH : ℚ) (q : StatisticsRow) :
    StatisticsRow :=
  { q with
    mean :=
      if ((shortTermsInHour db metaId startH).filterMap
          StatisticsShortTermRow.mean).isEmpty then q.mean
      else some (pyMean ((shortTermsInHour db metaId startH).filterMap
        StatisticsShortTermRow.mean))
    min :=
      if ((shortTermsInHour db metaId startH).filterMap
          StatisticsShortTermRow.min).isEmpty then q.min
      else pyMin ((shortTermsInHour db metaId startH).filterMap
        StatisticsShortTermRow.min)
    max :=
      if ((shortTermsInHour db metaId startH).filterMap
          StatisticsShortTermRow.max).isEmpty then q.max
      else pyMax ((shortTermsInHour db metaId startH).filterMap
        StatisticsShortTermRow.max)
    state :=
      if ((shortTermsInHour db metaId startH).filterMap
          StatisticsShortTermRow.state).isEmpty then q.state
      else ((shortTermsInHour db metaId startH).filterMap
        StatisticsShortTermRow.state).getLast? }

/-- Evaluation of the hourly recomputation in the updating case. -/
theorem recalc_long_eval (db : DB) (metaId : Nat) (startH : ℚ) (L : StatisticsRow)
    (hne : shortTermsInHour db metaId startH ≠ [])
    (hrow : db.stats_long.find? (longRowMatch metaId startH) = some L) :
    recalculate_long_term_stat db metaId startH =
      ({ db with
          stats_long :=
            updateFirst (longRowMatch metaId startH) (longAggUpdate db metaId startH)
              db.stats_long }, true) := by
  have hne' : ¬((shortTermsInHour db metaId startH).isEmpty = true) := fun h =>
    hne (List.isEmpty_iff.mp h)
  unfold recalculate_long_term_stat
  rw [if_neg hne', hrow]
  rfl

/-- Counterexample to C2 as stated: in `exDb2` the short-term bucket with the
greatest start in the hour (`exShortB`) has no state value, yet the
recomputed hourly last value is `some 5`, taken from the *earlier* bucket
`exShortA` — not the state value of the greatest-start bucket. -/
theorem hourly_last_value_counterexample :
    (shortTermsInHour exDb2 7 0).getLast? = some exShortB ∧
    exShortB.state = none ∧
    (recalculate_long_term_stat exDb2 7 0).1.stats_long.find? (longRowMatch 7 0) =
      some { exLongRow with mean := some 8, state := some 5 } ∧
    some (5 : ℚ) ≠ exShortB.state := by
  refine ⟨by with_unfolding_all rfl, rfl, by with_unfolding_all rfl, by decide⟩

/-- C2 (amended): the hourly recomputation over `(metaId, startH)` draws on
exactly the short-term buckets with start in `[startH, startH+3600)`.  With
no such bucket, or no hourly row, it is a no-op returning `false`.
Otherwise it returns `true` and sets: mean to the arithmetic mean of the
short-term means present (none present: unchanged); min/max to the extrema
of the short-term min/max values present (none: unchanged); last value to
the state value of the bucket with the greatest start *among those with a
state value present* (none: unchanged) — not of the greatest-start bucket
outright.  Raw samples and short-term rows are untouched. -/
theorem hourly_recompute_aggregates (db : DB) (metaId : Nat) (startH : ℚ) :
    (shortTermsInHour db metaId startH = [] →
      recalculate_long_term_stat db metaId startH = (db, false)) ∧
    (db.stats_long.find? (longRowMatch metaId startH) = none →
      recalculate_long_term_stat db metaId startH = (db, false)) ∧
    (∀ L, db.stats_long.find? (longRowMatch metaId startH) = some L →
      shortTermsInHour db metaId startH ≠ [] →
      (recalculate_long_term_stat db metaId startH).2 = true ∧
      (recalculate_long_term_stat db metaId startH).1.states = db.states ∧
      (recalculate_long_term_stat db metaId startH).1.stats_short = db.stats_short ∧
      ∃ L', (recalculate_long_term_stat db metaId startH).1.stats_long.find?
          (longRowMatch metaId startH) = some L' ∧
        ((shortTermsInHour db metaId startH).filterMap StatisticsShortTermRow.mean ≠ [] →
          L'.mean = some
            (((shortTermsInHour db metaId startH).filterMap StatisticsShortTermRow.mean).sum /
             ((((shortTermsInHour db metaId startH).filterMap
                StatisticsShortTermRow.mean).length : ℚ)))) ∧
        ((shortTermsInHour db metaId startH).filterMap StatisticsShortTermRow.mean = [] →
          L'.mean = L.mean) ∧
        ((shortTermsInHour db metaId startH).filterMap StatisticsShortTermRow.min ≠ [] →
          ∃ mn, L'.min = some mn ∧
            mn ∈ (shortTermsInHour db metaId startH).filterMap StatisticsShortTermRow.min ∧
            ∀ v ∈ (shortTermsInHour db metaId startH).filterMap StatisticsShortTermRow.min,
              mn ≤ v) ∧
        ((shortTermsInHour db metaId startH).filterMap StatisticsShortTermRow.min = [] →
          L'.min = L.min) ∧
        ((shortTermsInHour db metaId startH).filterMap StatisticsShortTermRow.max ≠ [] →
          ∃ mx, L'.max = some mx ∧
            mx ∈ (shortTermsInHour db metaId startH).filterMap StatisticsShortTermRow.max ∧
            ∀ v ∈ (shortTermsInHour db metaId startH).filterMap StatisticsShortTermRow.max,
              v ≤ mx) ∧
        ((shortTermsInHour db metaId startH).filterMap StatisticsShortTermRow.max = [] →
          L'.max = L.max) ∧
        ((shortTermsInHour db metaId startH).filterMap StatisticsShortTermRow.state ≠ [] →
          ∃ rl, rl ∈ shortTermsInHour db metaId startH ∧
            rl.state = L'.state ∧ (rl.state).isSome = true ∧
            ∀ q ∈ shortTermsInHour db metaId startH,
              (q.state).isSome = true → shortLe q rl) ∧
        ((shortTermsInHour db metaId startH).filterMap StatisticsShortTermRow.state = [] →
          L'.state = L.state)) := by
  refine ⟨?_, ?_, ?_⟩
  · intro hempty
    unfold recalculate_long_term_stat
    rw [if_pos]
    rw [hempty]
    rfl
  · intro hnone
    unfold recalculate_long_term_stat
    by_cases hsts : (shortTermsInHour db metaId startH).isEmpty = true
    · rw [if_pos hsts]
    · rw [if_neg hsts, hnone]
  · intro L hrow hne
    rw [recalc_long_eval db metaId startH L hne hrow]
    have hpres : ∀ a, longRowMatch metaId startH a = true →
        longRowMatch metaId startH (longAggUpdate db metaId startH a) = true := by
      intro a ha
      simpa [longRowMatch, longAggUpdate] using ha
    refine ⟨rfl, rfl, rfl, longAggUpdate db metaId startH L, ?_, ?_, ?_, ?_, ?_, ?_, ?_, ?_, ?_⟩
    · simp only [updateFirst_find? hpres, hrow, Option.map_some']
    · intro hm
      have hm' : ¬(((shortTermsInHour db metaId startH).filterMap
          StatisticsShortTermRow.mean).isEmpty = true) := fun h => hm (List.isEmpty_iff.mp h)
      simp only [longAggUpdate, if_neg hm']
      rfl
    · intro hm
      simp only [longAggUpdate, hm, List.isEmpty_nil, if_pos]
    · intro hm
      have hm' : ¬(((shortTermsInHour db metaId startH).filterMap
          StatisticsShortTermRow.min).isEmpty = true) := fun h => hm (List.isEmpty_iff.mp h)
      obtain ⟨v0, vt, hv⟩ := List.exists_cons_of_ne_nil hm
      obtain ⟨mn, hmn⟩ : ∃ mn, pyMin ((shortTermsInHour db metaId startH).filterMap
          StatisticsShortTermRow.min) = some mn := by
        rw [hv, pyMin]
        exact ⟨_, rfl⟩
      refine ⟨mn, ?_, pyMin_mem hmn, pyMin_le hmn⟩
      simp only [longAggUpdate, if_neg hm']
      exact hmn
    · intro hm
      simp only [longAggUpdate, hm, List.isEmpty_nil, if_pos]
    · intro hm
      have hm' : ¬(((shortTermsInHour db metaId startH).filterMap
          StatisticsShortTermRow.max).isEmpty = true) := fun h => hm (List.isEmpty_iff.mp h)
      obtain ⟨v0, vt, hv⟩ := List.exists_cons_of_ne_nil hm
      obtain ⟨mx, hmx⟩ : ∃ mx, pyMax ((shortTermsInHour db metaId startH).filterMap
          StatisticsShortTermRow.max) = some mx := by
        rw [hv, pyMax]
        exact ⟨_, rfl⟩
      refine ⟨mx, ?_, pyMax_mem hmx, pyMax_le hmx⟩
      simp only [longAggUpdate, if_neg hm']
      exact hmx
    · intro hm
      simp only [longAggUpdate, hm, List.isEmpty_nil, if_pos]
    · intro hm
      have hm' : ¬(((shortTermsInHour db metaId startH).filterMap
          StatisticsShortTermRow.state).isEmpty = true) := fun h => hm (List.isEmpty_iff.mp h)
      obtain ⟨v0, vt, hv⟩ := List.exists_cons_of_ne_nil hm
      have hlast : ((shortTermsInHour db metaId startH).filterMap
          StatisticsShortTermRow.state).getLast? = some (((shortTermsInHour db metaId
            startH).filterMap StatisticsShortTermRow.state).getLast hm) :=
        List.getLast?_eq_getLast _ hm
      have hpw : (shortTermsInHour db metaId startH).Pairwise shortLe := by
        unfold shortTermsInHour
        exact List.sorted_insertionSort shortLe _
      obtain ⟨rl, hrl, hgrl, hall⟩ := filterMap_getLast?_max
        (fun a => qnLe_refl (shortKey a)) StatisticsShortTermRow.state hpw hlast
      refine ⟨rl, hrl, ?_, ?_, hall⟩
      · rw [hgrl]
        simp only [longAggUpdate, if_neg hm']
        exact hlast.symm
      · rw [hgrl]
        rfl
    · intro hm
      simp only [longAggUpdate, hm, List.isEmpty_nil, if_pos]

/-- Witness for the amended C2: on `exDb2` the recomputation updates the
hourly row to mean 8 (the single present mean) and last value 5 (the state
of the greatest-start bucket that has one). -/
theorem hourly_recompute_aggregates_instance :
    (recalculate_long_term_stat exDb2 7 0).2 = true ∧
    (recalculate_long_term_stat exDb2 7 0).1.stats_long =
      [{ exLongRow with mean := some 8, state := some 5 }] :=
  ⟨((hourly_recompute_aggregates exDb2 7 0).2.2 exLongRow (by with_unfolding_all rfl)
      (by with_unfolding_all decide)).1,
    by with_unfolding_all rfl⟩

/-! ### C3 -/

/-- Database where the short-term bucket's window still holds a raw sample
and the hourly bucket's window holds that short-term bucket. -/
def exDb3 : DB :=
  { states := [mkSample 1 (.num 10) 10],
    states_meta := [{ metadata_id := 1, entity_id := "sensor.x" }],
    stats_short := [exShortRow],
    stats_long := [exLongRow],
    stats_meta := [{ id := 7, statistic_id := "sensor.x" }] }

/-- C3: a direct edit or delete of a short-term rollup row is refused — with
no mutation at all — whenever a raw sample of the statistic's entity has
`last_updated_ts` in the row's 5-minute window; the hourly guard refuses
likewise when a short-term bucket starts inside the row's 1-hour window;
and when the code's source-data check finds nothing, the same edit
succeeds. -/
theorem rollup_guard (db : DB) (statId : Nat) (mean mn mx sm st start : Option ℚ) :
    (∀ stat s0 smeta samp,
      db.stats_short.find? (fun r => decide (r.id = statId)) = some stat →
      stat.start_ts = some s0 →
      db.stats_meta.find? (fun m => decide (m.id = stat.metadata_id)) = some smeta →
      samp ∈ db.states → inPeriod db smeta.statistic_id s0 300 samp = true →
      update_statistic_sync db statId mean mn mx sm st start .shortTerm =
          (db, .guardRejected, []) ∧
        delete_statistic_sync db statId .shortTerm = (db, .guardRejected, [])) ∧
    (∀ stat s0 srow,
      db.stats_long.find? (fun r => decide (r.id = statId)) = some stat →
      stat.start_ts = some s0 →
      srow ∈ db.stats_short →
      (decide (srow.metadata_id = stat.metadata_id) &&
        tsInWindow srow.start_ts s0 3600) = true →
      update_statistic_sync db statId mean mn mx sm st start .longTerm =
          (db, .guardRejected, []) ∧
        delete_statistic_sync db statId .longTerm = (db, .guardRejected, [])) ∧
    (∀ stat,
      db.stats_short.find? (fun r => decide (r.id = statId)) = some stat →
      shortStatHasSourceData db stat = false →
      (update_statistic_sync db statId mean mn mx sm st start .shortTerm).2.1 =
        .success statId) ∧
    (∀ stat,
      db.stats_long.find? (fun r => decide (r.id = statId)) = some stat →
      longStatHasSourceData db stat = false →
      (update_statistic_sync db statId mean mn mx sm st start .longTerm).2.1 =
        .success statId) := by
  refine ⟨?_, ?_, ?_, ?_⟩
  · intro stat s0 smeta samp hfind hstart hsm hsamp hper
    have hblocked : shortStatHasSourceData db stat = true := by
      unfold shortStatHasSourceData
      rw [hstart, hsm]
      exact List.any_eq_true.mpr ⟨samp, hsamp, hper⟩
    constructor
    · simp only [update_statistic_sync, hfind, hblocked, if_true]
    · simp only [delete_statistic_sync, hfind, hblocked, if_true]
  · intro stat s0 srow hfind hstart hsrow hcond
    have hblocked : longStatHasSourceData db stat = true := by
      unfold longStatHasSourceData
      rw [hstart]
      exact List.any_eq_true.mpr ⟨srow, hsrow, hcond⟩
    constructor
    · simp only [update_statistic_sync, hfind, hblocked, if_true]
    · simp only [delete_statistic_sync, hfind, hblocked, if_true]
  · intro stat hfind hok
    simp only [update_statistic_sync, hfind, hok, Bool.false_eq_true, if_false]
    cases h1 : (applyShortStatEdit mean mn mx sm st start stat).start_ts with
    | none => simp [h1]
    | some ets => simp [h1]
  · intro stat hfind hok
    simp only [update_statistic_sync, hfind, hok, Bool.false_eq_true, if_false]

/-- Witness for C3: on `exDb3` the sample at time 10 blocks the edit and the
delete of the short-term row, the short-term row blocks the delete of the
hourly row, and after deleting the blocking sample the same short-term edit
succeeds. -/
theorem rollup_guard_instance :
    update_statistic_sync exDb3 1 (some 1) none none none none none .shortTerm =
      (exDb3, .guardRejected, []) ∧
    delete_statistic_sync exDb3 10 .longTerm = (exDb3, .guardRejected, []) ∧
    (update_statistic_sync (delete_record_sync true exDb3 1).1 1 (some 1) none none none
      none none .shortTerm).2.1 = .success 1 :=
  ⟨((rollup_guard exDb3 1 (some 1) none none none none none).1 exShortRow 0
      ⟨7, "sensor.x"⟩ (mkSample 1 (.num 10) 10) (by with_unfolding_all rfl) rfl
      (by with_unfolding_all rfl) (by with_unfolding_all decide)
      (by with_unfolding_all rfl)).1,
    ((rollup_guard exDb3 10 (some 1) none none none none none).2.1 exLongRow 0
      exShortRow (by with_unfolding_all rfl) rfl (by with_unfolding_all decide)
      (by with_unfolding_all rfl)).2,
    (rollup_guard (delete_record_sync true exDb3 1).1 1 (some 1) none none none none
      none).2.2.1 exShortRow (by with_unfolding_all rfl) (by with_unfolding_all rfl)⟩

/-! ### C7 -/

/-- The hourly recomputation touches only the hourly table. -/
theorem recalc_long_frame (db : DB) (m : Nat) (h : ℚ) :
    (recalculate_long_term_stat db m h).1.states = db.states ∧
    (recalculate_long_term_stat db m h).1.states_meta = db.states_meta ∧
    (recalculate_long_term_stat db m h).1.stats_short = db.stats_short ∧
    (recalculate_long_term_stat db m h).1.stats_meta = db.stats_meta := by
  unfold recalculate_long_term_stat
  by_cases hs : (shortTermsInHour db m h).isEmpty = true
  · rw [if_pos hs]
    exact ⟨rfl, rfl, rfl, rfl⟩
  · rw [if_neg hs]
    cases db.stats_long.find? (longRowMatch m h) <;> exact ⟨rfl, rfl, rfl, rfl⟩

/-- The short-term recomputation touches only the short-term table. -/
theorem recalc_short_frame (db : DB) (m : Nat) (e : String) (s5 : ℚ) :
    (recalculate_short_term_stat db m e s5).1.states = db.states ∧
    (recalculate_short_term_stat db m e s5).1.states_meta = db.states_meta ∧
    (recalculate_short_term_stat db m e s5).1.stats_long = db.stats_long ∧
    (recalculate_short_term_stat db m e s5).1.stats_meta = db.stats_meta := by
  unfold recalculate_short_term_stat
  cases db.stats_short.find? (shortRowMatch m s5) with
  | none => exact ⟨rfl, rfl, rfl, rfl⟩
  | some r =>
      cases hns : numericSamples db e s5 with
      | nil => simp [hns]
      | cons a t => simp [hns]

/-- A successful `find?` forces a positive count of matching rows. -/
theorem find?_filter_pos {α : Type} {p : α → Bool} {l : List α} {a : α}
    (h : l.find? p = some a) : 0 < (l.filter p).length := by
  have hmem : a ∈ l.filter p :=
    List.mem_filter.mpr ⟨List.mem_of_find?_eq_some h, List.find?_some h⟩
  exact List.length_pos.mpr (List.ne_nil_of_mem hmem)

/-- C7: after a guard-passing edit of a short-term rollup row, exactly one
hourly recomputation is performed, at the hour `floor(start/3600)*3600` of
the edited row's own (post-edit) bucket start, and the edited row is
committed; after a guard-passing delete, the single hourly recomputation
uses the deleted row's bucket start captured before the deletion. -/
theorem rollup_cascade_to_hour (db : DB) (statId : Nat)
    (mean mn mx sm st start : Option ℚ) :
    (∀ stat ets,
      db.stats_short.find? (fun r => decide (r.id = statId)) = some stat →
      shortStatHasSourceData db stat = false →
      (applyShortStatEdit mean mn mx sm st start stat).start_ts = some ets →
      (update_statistic_sync db statId mean mn mx sm st start .shortTerm).2.1 =
          .success statId ∧
        (update_statistic_sync db statId mean mn mx sm st start .shortTerm).2.2 =
          [.hourly stat.metadata_id (pHour ets)] ∧
        (update_statistic_sync db statId mean mn mx sm st start
            .shortTerm).1.stats_short.find? (fun r => decide (r.id = statId)) =
          some (applyShortStatEdit mean mn mx sm st start stat)) ∧
    (∀ stat s0,
      db.stats_short.find? (fun r => decide (r.id = statId)) = some stat →
      shortStatHasSourceData db stat = false →
      stat.start_ts = some s0 →
      (delete_statistic_sync db statId .shortTerm).2.1 = .success statId ∧
        (delete_statistic_sync db statId .shortTerm).2.2 =
          [.hourly stat.metadata_id (pHour s0)]) := by
  constructor
  · intro stat ets hfind hok hets
    have hpres : ∀ a, decide (a.id = statId) = true →
        decide ((applyShortStatEdit mean mn mx sm st start a).id = statId) = true := by
      intro a ha
      simpa [applyShortStatEdit] using ha
    simp only [update_statistic_sync, hfind, hok, Bool.false_eq_true, if_false, hets]
    refine ⟨trivial, trivial, ?_⟩
    rw [(recalc_long_frame _ _ _).2.2.1]
    show (updateFirst (fun r => decide (r.id = statId))
      (applyShortStatEdit mean mn mx sm st start) db.stats_short).find? _ = _
    rw [updateFirst_find? hpres, hfind, Option.map_some']
  · intro stat s0 hfind hok hstart
    have hpos : 0 < (db.stats_short.filter fun r => decide (r.id = statId)).length :=
      find?_filter_pos hfind
    simp only [delete_statistic_sync, hfind, hok, Bool.false_eq_true, if_false, hstart,
      hpos, if_true]
    exact ⟨trivial, trivial⟩

/-- Database with rollup rows but no underlying source data. -/
def exDb3b : DB :=
  { states := [],
    states_meta := [{ metadata_id := 1, entity_id := "sensor.x" }],
    stats_short := [exShortRow],
    stats_long := [exLongRow],
    stats_meta := [{ id := 7, statistic_id := "sensor.x" }] }

/-- Witness for C7: on `exDb3b` the short-term edit and the short-term delete
each cascade into exactly one hourly recomputation at hour 0, the hour of
the row's start 0. -/
theorem rollup_cascade_to_hour_instance :
    (update_statistic_sync exDb3b 1 (some 1) none none none none none .shortTerm).2.1 =
        .success 1 ∧
    (update_statistic_sync exDb3b 1 (some 1) none none none none none .shortTerm).2.2 =
        [.hourly 7 0] ∧
    (delete_statistic_sync exDb3b 1 .shortTerm).2.1 = .success 1 ∧
    (delete_statistic_sync exDb3b 1 .shortTerm).2.2 = [.hourly 7 0] := by
  have h1 := (rollup_cascade_to_hour exDb3b 1 (some 1) none none none none none).1
    exShortRow 0 (by with_unfolding_all rfl) (by with_unfolding_all rfl) rfl
  have h2 := (rollup_cascade_to_hour exDb3b 1 (some 1) none none none none none).2
    exShortRow 0 (by with_unfolding_all rfl) (by with_unfolding_all rfl) rfl
  refine ⟨h1.1, ?_, h2.1, ?_⟩
  · rw [h1.2.1]
    norm_num [pHour, exShortRow]
  · rw [h2.2]
    norm_num [pHour, exShortRow]

/-! ### C6 -/

/-- C6: when the target sample exists and the statistics cascade is
triggered but fails with a data-layer error, the primary mutation stays
committed — the result database is exactly the primary commit, the edited
row carries the new field values, and the call still reports success (the
failure is only a logged warning; nothing is rolled back). -/
theorem cascade_failure_keeps_sample_edit
    (cascade : DB → StateRow → Option ℚ → Option ℚ →
      Except String (DB × List RecomputeCall))
    (db : DB) (state_id : Nat) (ns : Option StateVal) (na : Option String)
    (nlc nlu : Option ℚ) (st : StateRow) (e : String)
    (hfind : db.states.find? (fun s => decide (s.state_id = state_id)) = some st)
    (htrig : (ns.isSome || nlu.isSome) = true)
    (hfail : cascade (primaryCommit db state_id ns na nlc nlu)
        (applySampleEdit ns na nlc nlu st) st.last_updated_ts nlu = .error e) :
    update_record_sync_with cascade db state_id ns na nlc nlu =
      (primaryCommit db state_id ns na nlc nlu, .success state_id 0, []) ∧
    (primaryCommit db state_id ns na nlc nlu).states.find?
        (fun s => decide (s.state_id = state_id)) =
      some (applySampleEdit ns na nlc nlu st) ∧
    (primaryCommit db state_id ns na nlc nlu).stats_short = db.stats_short ∧
    (primaryCommit db state_id ns na nlc nlu).stats_long = db.stats_long := by
  refine ⟨?_, ?_, rfl, rfl⟩
  · unfold update_record_sync_with
    rw [hfind]
    simp only [htrig, if_true, hfail]
  · have hpres : ∀ a, decide (a.state_id = state_id) = true →
        decide ((applySampleEdit ns na nlc nlu a).state_id = state_id) = true := by
      intro a ha
      simpa [applySampleEdit] using ha
    show (updateFirst (fun s => decide (s.state_id = state_id))
      (applySampleEdit ns na nlc nlu) db.states).find? _ = _
    rw [updateFirst_find? hpres, hfind, Option.map_some']

/-- A cascade step that always raises. -/
def failingCascade : DB → StateRow → Option ℚ → Option ℚ →
    Except String (DB × List RecomputeCall) :=
  fun _ _ _ _ => .error "database failure during statistics update"

/-- Witness for C6: editing sample 1's value to 42 with a failing cascade
still succeeds and the committed row holds the new value. -/
theorem cascade_failure_instance :
    (update_record_sync_with failingCascade exDb1 1 (some (.num 42)) none none
        none).2.1 = .success 1 0 ∧
    ∃ st', (update_record_sync_with failingCascade exDb1 1 (some (.num 42)) none none
        none).1.states.find? (fun s => decide (s.state_id = 1)) = some st' ∧
      st'.state = .num 42 := by
  have h := cascade_failure_keeps_sample_edit failingCascade exDb1 1 (some (.num 42))
    none none none (mkSample 1 (.num 10) 10) "database failure during statistics update"
    (by with_unfolding_all rfl) rfl rfl
  refine ⟨by rw [h.1], applySampleEdit (some (.num 42)) none none none
    (mkSample 1 (.num 10) 10), ?_, rfl⟩
  rw [h.1]
  exact h.2.1

/-! ### C8 and C10 -/

/-- Evaluation of `_delete_record_sync` on an existing sample: backward
references are cleared, the referencing short-term statistics are removed
(when that step does not raise), the sample rows with the identifier are
removed, and the call reports success with the count of statistics rows
deleted. -/
theorem delete_record_eval (ok : Bool) (db : DB) (sid : Nat) (st : StateRow)
    (hfind : db.states.find? (fun s => decide (s.state_id = sid)) = some st) :
    (delete_record_sync ok db sid).1.states =
      (db.states.map (clearRef sid)).filter (fun s => !decide (s.state_id = sid)) ∧
    (delete_record_sync ok db sid).1.stats_short =
      (if ok then db.stats_short.filter (fun r => !decide (r.state_id = some sid))
       else db.stats_short) ∧
    (delete_record_sync ok db sid).1.stats_long = db.stats_long ∧
    (delete_record_sync ok db sid).1.states_meta = db.states_meta ∧
    (delete_record_sync ok db sid).2 = .success sid
      (if ok then (db.stats_short.filter (fun r => decide (r.state_id = some sid))).length
       else 0) := by
  have hsid : st.state_id = sid := by
    have h := List.find?_some hfind
    simpa using h
  have hmem2 : clearRef sid st ∈ db.states.map (clearRef sid) :=
    List.mem_map_of_mem _ (List.mem_of_find?_eq_some hfind)
  have hkeep : decide ((clearRef sid st).state_id = sid) = true := by
    unfold clearRef
    by_cases h : st.old_state_id = some sid <;> simp [h, hsid]
  have hpos : 0 < ((db.states.map (clearRef sid)).filter
      (fun s => decide (s.state_id = sid))).length :=
    List.length_pos.mpr (List.ne_nil_of_mem (List.mem_filter.mpr ⟨hmem2, hkeep⟩))
  unfold delete_record_sync
  rw [hfind]
  cases ok with
  | true =>
      simp only [if_true, if_pos hpos]
      exact ⟨trivial, trivial, trivial, trivial, trivial⟩
  | false =>
      simp only [Bool.false_eq_true, if_false, if_pos hpos]
      exact ⟨trivial, trivial, trivial, trivial, trivial⟩

/-- C8: deleting an existing sample first clears every backward reference
(`old_state_id`) to it, so that afterwards no remaining sample references
the deleted identifier, the deleted identifier is gone, the delete still
reports success (even when such a foreign reference existed), and
referential integrity of the remaining backward references is preserved. -/
theorem delete_record_clears_backrefs (ok : Bool) (db : DB) (sid : Nat) (st : StateRow)
    (hfind : db.states.find? (fun s => decide (s.state_id = sid)) = some st) :
    (∃ n, (delete_record_sync ok db sid).2 = .success sid n) ∧
    (∀ s' ∈ (delete_record_sync ok db sid).1.states, s'.state_id ≠ sid) ∧
    (∀ s' ∈ (delete_record_sync ok db sid).1.states, s'.old_state_id ≠ some sid) ∧
    ((∀ s ∈ db.states, ∀ j, s.old_state_id = some j →
        ∃ t ∈ db.states, t.state_id = j) →
      ∀ s' ∈ (delete_record_sync ok db sid).1.states, ∀ j, s'.old_state_id = some j →
        ∃ t ∈ (delete_record_sync ok db sid).1.states, t.state_id = j) := by
  obtain ⟨hstates, _, _, _, houtcome⟩ := delete_record_eval ok db sid st hfind
  refine ⟨⟨_, houtcome⟩, ?_, ?_, ?_⟩
  · intro s' hs'
    rw [hstates] at hs'
    have := (List.mem_filter.mp hs').2
    simpa using this
  · intro s' hs'
    rw [hstates] at hs'
    obtain ⟨s, _, rfl⟩ := List.mem_map.mp (List.mem_filter.mp hs').1
    unfold clearRef
    by_cases h : s.old_state_id = some sid <;> simp [h]
  · intro hinv s' hs' j hj
    rw [hstates] at hs' ⊢
    have hs'f := List.mem_filter.mp hs'
    obtain ⟨s, hsmem, rfl⟩ := List.mem_map.mp hs'f.1
    have hjne : j ≠ sid := by
      unfold clearRef at hj
      by_cases h : s.old_state_id = some sid
      · rw [if_pos h] at hj
        exact absurd hj (by simp)
      · rw [if_neg h] at hj
        intro heq
        exact h (heq ▸ hj)
    have hsold : s.old_state_id = some j := by
      unfold clearRef at hj
      by_cases h : s.old_state_id = some sid
      · rw [if_pos h] at hj
        exact absurd hj (by simp)
      · rw [if_neg h] at hj
        exact hj
    obtain ⟨t, htmem, htid⟩ := hinv s hsmem j hsold
    refine ⟨clearRef sid t, List.mem_filter.mpr ⟨List.mem_map_of_mem _ htmem, ?_⟩, ?_⟩
    · have : (clearRef sid t).state_id = j := by
        unfold clearRef
        by_cases h : t.old_state_id = some sid <;> simp [h, htid]
      simp [this, hjne]
    · unfold clearRef
      by_cases h : t.old_state_id = some sid <;> simp [h, htid]

/-- C10: deleting an existing sample removes every short-term rollup row
whose last-value sample reference equals the deleted identifier, reports
success carrying the number of statistics rows deleted, and a failure of
the statistics-deletion step (modelled by `ok = false`) leaves the
statistics untouched, reports zero, and still deletes the sample. -/
theorem delete_record_deletes_referencing_stats (db : DB) (sid : Nat) (st : StateRow)
    (hfind : db.states.find? (fun s => decide (s.state_id = sid)) = some st) :
    ((delete_record_sync true db sid).2 = .success sid
        ((db.stats_short.filter (fun r => decide (r.state_id = some sid))).length) ∧
      (delete_record_sync true db sid).1.stats_short =
        db.stats_short.filter (fun r => !decide (r.state_id = some sid)) ∧
      ∀ r ∈ (delete_record_sync true db sid).1.stats_short, r.state_id ≠ some sid) ∧
    ((delete_record_sync false db sid).2 = .success sid 0 ∧
      (delete_record_sync false db sid).1.stats_short = db.stats_short ∧
      ∀ s' ∈ (delete_record_sync false db sid).1.states, s'.state_id ≠ sid) := by
  obtain ⟨hstT, hssT, _, _, hoT⟩ := delete_record_eval true db sid st hfind
  obtain ⟨hstF, hssF, _, _, hoF⟩ := delete_record_eval false db sid st hfind
  refine ⟨⟨by simpa using hoT, by simpa using hssT, ?_⟩,
    ⟨by simpa using hoF, by simpa using hssF, ?_⟩⟩
  · intro r hr
    rw [hssT] at hr
    simp only [if_true] at hr
    have := (List.mem_filter.mp hr).2
    simpa using this
  · intro s' hs'
    rw [hstF] at hs'
    have := (List.mem_filter.mp hs').2
    simpa using this

/-- Sample 2 holds a backward reference to sample 1. -/
def exS2 : StateRow := { mkSample 2 (.num 20) 20 with old_state_id := some 1 }

/-- Database where sample 1 is referenced both by sample 2's backward
reference and by a short-term rollup's last-value reference. -/
def exDb8 : DB :=
  { states := [mkSample 1 (.num 10) 10, exS2],
    states_meta := [{ metadata_id := 1, entity_id := "sensor.x" }],
    stats_short := [{ exShortRow with state_id := some 1 }],
    stats_long := [],
    stats_meta := [{ id := 7, statistic_id := "sensor.x" }] }

/-- Witness for C8: deleting sample 1 of `exDb8` succeeds although sample 2
references it, and the surviving row is sample 2 with the reference
cleared. -/
theorem delete_record_clears_backrefs_instance :
    (∃ n, (delete_record_sync true exDb8 1).2 = .success 1 n) ∧
    (delete_record_sync true exDb8 1).1.states = [{ exS2 with old_state_id := none }] ∧
    exS2.old_state_id = some 1 :=
  ⟨(delete_record_clears_backrefs true exDb8 1 (mkSample 1 (.num 10) 10)
      (by with_unfolding_all rfl)).1,
    by with_unfolding_all rfl, rfl⟩

/-- Witness for C10: deleting sample 1 of `exDb8` reports one statistics row
deleted and leaves the short-term table empty. -/
theorem delete_record_deletes_referencing_stats_instance :
    (delete_record_sync true exDb8 1).2 = .success 1 1 ∧
    (delete_record_sync true exDb8 1).1.stats_short = [] := by
  have h := (delete_record_deletes_referencing_stats exDb8 1 (mkSample 1 (.num 10) 10)
    (by with_unfolding_all rfl)).1
  refine ⟨?_, ?_⟩
  · rw [h.1]
    with_unfolding_all rfl
  · rw [h.2.1]
    with_unfolding_all rfl

/-! ### C4 -/

/-- The hour floor factors through the 5-minute floor. -/
theorem floor_comp_12 (t : ℚ) : ⌊t / 3600⌋ = ⌊((⌊t / 300⌋ : ℚ)) / 12⌋ := by
  have h1 : ((⌊t / 300⌋ : ℚ)) ≤ t / 300 := Int.floor_le _
  have h2 : t / 300 < ⌊t / 300⌋ + 1 := Int.lt_floor_add_one _
  have h3 : ((⌊((⌊t / 300⌋ : ℚ)) / 12⌋ : ℚ)) ≤ ((⌊t / 300⌋ : ℚ)) / 12 := Int.floor_le _
  have h4 : ((⌊t / 300⌋ : ℚ)) / 12 < ⌊((⌊t / 300⌋ : ℚ)) / 12⌋ + 1 := Int.lt_floor_add_one _
  have key : t / 3600 = (t / 300) / 12 := by ring
  rw [key]
  refine (Int.floor_eq_iff.mpr ⟨?_, ?_⟩).symm.symm
  · calc ((⌊((⌊t / 300⌋ : ℚ)) / 12⌋ : ℚ)) ≤ ((⌊t / 300⌋ : ℚ)) / 12 := h3
    _ ≤ (t / 300) / 12 := by
        exact (div_le_div_right (by norm_num : (0:ℚ) < 12)).mpr h1
  · have h5 : ((⌊t / 300⌋ : ℚ)) < 12 * (⌊((⌊t / 300⌋ : ℚ)) / 12⌋ + 1) := by
      calc ((⌊t / 300⌋ : ℚ)) = (((⌊t / 300⌋ : ℚ)) / 12) * 12 := by ring
      _ < (⌊((⌊t / 300⌋ : ℚ)) / 12⌋ + 1) * 12 :=
          mul_lt_mul_of_pos_right h4 (by norm_num)
      _ = 12 * (⌊((⌊t / 300⌋ : ℚ)) / 12⌋ + 1) := by ring
    have h6 : ⌊t / 300⌋ + 1 ≤ 12 * (⌊((⌊t / 300⌋ : ℚ)) / 12⌋ + 1) := by
      have h5' : ⌊t / 300⌋ < 12 * (⌊((⌊t / 300⌋ : ℚ)) / 12⌋ + 1) := by exact_mod_cast h5
      omega
    have h7 : ((⌊t / 300⌋ : ℚ)) + 1 ≤ 12 * (((⌊((⌊t / 300⌋ : ℚ)) / 12⌋ : ℚ)) + 1) := by
      exact_mod_cast h6
    calc (t / 300) / 12 < (((⌊t / 300⌋ : ℚ)) + 1) / 12 :=
        (div_lt_div_right (by norm_num : (0:ℚ) < 12)).mpr h2
    _ ≤ (12 * (((⌊((⌊t / 300⌋ : ℚ)) / 12⌋ : ℚ)) + 1)) / 12 :=
        (div_le_div_right (by norm_num : (0:ℚ) < 12)).mpr h7
    _ = ⌊((⌊t / 300⌋ : ℚ)) / 12⌋ + 1 := by ring

/-- Two timestamps in the same 5-minute bucket are in the same hour. -/
theorem pHour_eq_of_p5_eq {a b : ℚ} (h : p5 a = p5 b) : pHour a = pHour b := by
  have hfloor : ⌊a / 300⌋ = ⌊b / 300⌋ := by
    have h' := h
    unfold p5 at h'
    have hc := mul_right_cancel₀ (by norm_num : (300:ℚ) ≠ 0) h'
    exact_mod_cast hc
  unfold pHour
  rw [floor_comp_12 a, floor_comp_12 b, hfloor]

/-- Membership in a Python-set insertion. -/
theorem insertNew_mem {x y : ℚ} {l : List ℚ} : y ∈ insertNew x l ↔ y ∈ l ∨ y = x := by
  unfold insertNew
  by_cases h : x ∈ l
  · rw [if_pos h]
    constructor
    · exact Or.inl
    · rintro (h' | rfl)
      · exact h'
      · exact h
  · rw [if_neg h]
    simp [List.mem_append]

/-- The `updated_at` the record carries after the edit, as the cascade sees
it: the supplied new `last_updated` if any, else the record's own (then
unchanged) `last_updated_ts`. -/
def effectiveNewTs (new_last_updated : Option ℚ) (st : StateRow) : Option ℚ :=
  match new_last_updated with
  | some t => some t
  | none => st.last_updated_ts

/-- The trace of `_update_record_sync` when the sample exists, its prior
timestamp is known, the update supplies a new value or a new
`last_updated`, and the entity's dictionary rows resolve: all the affected
short-term recomputations, in order, then all the affected hourly
recomputations. -/
theorem update_record_trace (db : DB) (sid : Nat) (ns : Option StateVal)
    (na : Option String) (nlc : Option ℚ) (nlu : Option ℚ) (t1 t2 : ℚ) (st : StateRow)
    (me : StatesMetaRow) (sm : StatisticsMetaRow)
    (hfind : db.states.find? (fun s => decide (s.state_id = sid)) = some st)
    (hts : st.last_updated_ts = some t1)
    (htrig : (ns.isSome || nlu.isSome) = true)
    (hnew : effectiveNewTs nlu st = some t2)
    (hme : db.states_meta.find?
      (fun m => decide (m.metadata_id = st.metadata_id)) = some me)
    (hsm : db.stats_meta.find?
      (fun m => decide (m.statistic_id = me.entity_id)) = some sm) :
    (update_record_sync db sid ns na nlc nlu).2.2 =
      (affected5min (some t1) (some t2)).map
        (RecomputeCall.shortTerm sm.id me.entity_id) ++
      (affectedHour (some t1) (some t2)).map (RecomputeCall.hourly sm.id) := by
  have hne : ¬((affected5min (some t1) (some t2)).isEmpty = true) := by
    show ¬((insertNew (p5 t2) [p5 t1]).isEmpty = true)
    unfold insertNew
    split <;> simp
  cases nlu with
  | some t =>
      have ht2 : t = t2 := by
        simpa [effectiveNewTs] using hnew
      subst ht2
      have hme' : db.states_meta.find? (fun m =>
          decide (m.metadata_id = (applySampleEdit ns na nlc (some t) st).metadata_id)) =
          some me := by
        simpa [applySampleEdit] using hme
      unfold update_record_sync update_record_sync_with
      rw [hfind]
      simp only [htrig, if_true, hts]
      unfold update_statistics_after_state_change
      rw [if_neg hne]
      simp only [primaryCommit]
      simp only [hme', hsm]
  | none =>
      have ht21 : t2 = t1 := by
        have h' : st.last_updated_ts = some t2 := by
          simpa [effectiveNewTs] using hnew
        rw [hts] at h'
        exact (Option.some.inj h').symm
      subst ht21
      unfold update_record_sync update_record_sync_with
      rw [hfind]
      simp only [htrig, if_true]
      unfold update_statistics_after_state_change
      simp only [applySampleEdit, override, hts]
      rw [if_neg hne]
      simp only [primaryCommit]
      simp only [hme, hsm]

/-- Counterexample to C4 as stated.  First: editing only `last_changed` — a
timestamp change — triggers no recomputation at all (the code only reacts to
a new value or a new `last_updated`), although the edit is applied.  Second:
moving `last_updated_ts` from 10 to 600 stays within hour bucket 0 but
crosses 5-minute buckets, producing three recompute calls, not the two the
claim allows for a same-hour move. -/
theorem update_trigger_counterexample :
    ((update_record_sync exDb1 1 none none (some 5) none).2.2 = [] ∧
      (update_record_sync exDb1 1 none none (some 5) none).1.states.find?
        (fun s => decide (s.state_id = 1)) =
        some { mkSample 1 (.num 10) 10 with last_changed_ts := some 5 } ∧
      (mkSample 1 (.num 10) 10).last_changed_ts ≠ some 5) ∧
    (update_record_sync exDb1 1 none none none (some 600)).2.2.length = 3 := by
  refine ⟨⟨by with_unfolding_all rfl, by with_unfolding_all rfl, by decide⟩,
    by with_unfolding_all rfl⟩

/-- C4 (amended): a sample update that supplies a new value or a new
`last_updated` recomputes, in order, first every affected 5-minute bucket
and then every affected hourly bucket; the affected 5-minute starts are
exactly the buckets of the prior `updated_at` and of the `updated_at` the
record carries after the edit, the affected hourly starts their containing
hours; moving between distinct hour buckets makes four recompute calls, a
move within one hour makes three when the 5-minute buckets differ and two
when they coincide (in particular a value-only update makes two).  An
update supplying neither a new value nor a new `last_updated` — for
example one changing only `last_changed` — triggers no recomputation. -/
theorem update_recompute_periods (db : DB) (sid : Nat) (na : Option String)
    (nlc : Option ℚ) :
    (update_record_sync db sid none na nlc none).2.2 = [] ∧
    (∀ (ns : Option StateVal) (nlu : Option ℚ) (t1 t2 : ℚ) (st : StateRow)
      (me : StatesMetaRow) (sm : StatisticsMetaRow),
      db.states.find? (fun s => decide (s.state_id = sid)) = some st →
      st.last_updated_ts = some t1 →
      (ns.isSome || nlu.isSome) = true →
      effectiveNewTs nlu st = some t2 →
      db.states_meta.find?
        (fun m => decide (m.metadata_id = st.metadata_id)) = some me →
      db.stats_meta.find?
        (fun m => decide (m.statistic_id = me.entity_id)) = some sm →
      (∃ A B, (update_record_sync db sid ns na nlc nlu).2.2 = A ++ B ∧
        (∀ c ∈ A, c.isShort = true) ∧ (∀ c ∈ B, c.isShort = false)) ∧
      (∀ q, RecomputeCall.shortTerm sm.id me.entity_id q ∈
          (update_record_sync db sid ns na nlc nlu).2.2 ↔
        (q = p5 t1 ∨ q = p5 t2)) ∧
      (∀ q, RecomputeCall.hourly sm.id q ∈
          (update_record_sync db sid ns na nlc nlu).2.2 ↔
        (q = pHour t1 ∨ q = pHour t2)) ∧
      (update_record_sync db sid ns na nlc nlu).2.2.length =
        (if pHour t1 = pHour t2 then (if p5 t1 = p5 t2 then 2 else 3) else 4)) := by
  constructor
  · unfold update_record_sync update_record_sync_with
    cases db.states.find? (fun s => decide (s.state_id = sid)) with
    | none => rfl
    | some st => rfl
  · intro ns nlu t1 t2 st me sm hfind hts htrig hnew hme hsm
    have htrace := update_record_trace db sid ns na nlc nlu t1 t2 st me sm hfind hts
      htrig hnew hme hsm
    have ha5 : affected5min (some t1) (some t2) =
        if p5 t2 = p5 t1 then [p5 t1] else [p5 t1, p5 t2] := by
      show insertNew (p5 t2) [p5 t1] = _
      unfold insertNew
      by_cases h : p5 t2 = p5 t1
      · rw [if_pos (List.mem_singleton.mpr h), if_pos h]
      · rw [if_neg (fun hm => h (List.mem_singleton.mp hm)), if_neg h]
        rfl
    have hah : affectedHour (some t1) (some t2) =
        if pHour t2 = pHour t1 then [pHour t1] else [pHour t1, pHour t2] := by
      show insertNew (pHour t2) [pHour t1] = _
      unfold insertNew
      by_cases h : pHour t2 = pHour t1
      · rw [if_pos (List.mem_singleton.mpr h), if_pos h]
      · rw [if_neg (fun hm => h (List.mem_singleton.mp hm)), if_neg h]
        rfl
    have ha5m : ∀ q, q ∈ affected5min (some t1) (some t2) ↔ (q = p5 t1 ∨ q = p5 t2) := by
      intro q
      rw [ha5]
      by_cases h : p5 t2 = p5 t1
      · rw [if_pos h]
        constructor
        · intro hq
          exact Or.inl (List.mem_singleton.mp hq)
        · rintro (rfl | rfl)
          · exact List.mem_singleton.mpr rfl
          · exact List.mem_singleton.mpr h
      · rw [if_neg h]
        constructor
        · intro hq
          rcases List.mem_cons.mp hq with rfl | hq'
          · exact Or.inl rfl
          · exact Or.inr (List.mem_singleton.mp hq')
        · rintro (rfl | rfl)
          · exact List.mem_cons_self _ _
          · exact List.mem_cons_of_mem _ (List.mem_singleton.mpr rfl)
    have hahm : ∀ q, q ∈ affectedHour (some t1) (some t2) ↔
        (q = pHour t1 ∨ q = pHour t2) := by
      intro q
      rw [hah]
      by_cases h : pHour t2 = pHour t1
      · rw [if_pos h]
        constructor
        · intro hq
          exact Or.inl (List.mem_singleton.mp hq)
        · rintro (rfl | rfl)
          · exact List.mem_singleton.mpr rfl
          · exact List.mem_singleton.mpr h
      · rw [if_neg h]
        constructor
        · intro hq
          rcases List.mem_cons.mp hq with rfl | hq'
          · exact Or.inl rfl
          · exact Or.inr (List.mem_singleton.mp hq')
        · rintro (rfl | rfl)
          · exact List.mem_cons_self _ _
          · exact List.mem_cons_of_mem _ (List.mem_singleton.mpr rfl)
    refine ⟨⟨_, _, htrace, ?_, ?_⟩, ?_, ?_, ?_⟩
    · intro c hc
      obtain ⟨q, _, rfl⟩ := List.mem_map.mp hc
      rfl
    · intro c hc
      obtain ⟨q, _, rfl⟩ := List.mem_map.mp hc
      rfl
    · intro q
      rw [htrace]
      rw [← ha5m q]
      simp [List.mem_append, List.mem_map]
    · intro q
      rw [htrace]
      rw [← hahm q]
      simp [List.mem_append, List.mem_map]
    · rw [htrace, List.length_append, List.length_map, List.length_map, ha5, hah]
      by_cases h5 : p5 t2 = p5 t1
      · have hh : pHour t2 = pHour t1 := pHour_eq_of_p5_eq h5
        rw [if_pos h5, if_pos hh, if_pos hh.symm, if_pos h5.symm]
        rfl
      · by_cases hh : pHour t2 = pHour t1
        · rw [if_neg h5, if_pos hh, if_pos hh.symm, if_neg (fun he => h5 he.symm)]
          rfl
        · rw [if_neg h5, if_neg hh, if_neg (fun he => hh he.symm)]
          rfl

/-- Witness for the amended C4: on `exDb1`, an edit of only `last_changed`
triggers nothing; moving sample 1's `last_updated` from 10 (hour bucket 0)
to 3600 (hour bucket 3600) produces exactly four recompute calls; and a
value-only update (same `updated_at`) produces exactly two. -/
theorem update_recompute_periods_instance :
    (update_record_sync exDb1 1 none none (some 5) none).2.2 = [] ∧
    (update_record_sync exDb1 1 none none none (some 3600)).2.2.length = 4 ∧
    (update_record_sync exDb1 1 (some (.num 42)) none none none).2.2.length = 2 := by
  refine ⟨(update_recompute_periods exDb1 1 none (some 5)).1, ?_, ?_⟩
  · have h := ((update_recompute_periods exDb1 1 none none).2 none (some 3600) 10 3600
      (mkSample 1 (.num 10) 10) ⟨1, "sensor.x"⟩ ⟨7, "sensor.x"⟩
      (by with_unfolding_all rfl) rfl rfl rfl
      (by with_unfolding_all rfl) (by with_unfolding_all rfl)).2.2.2
    rw [h]
    with_unfolding_all rfl
  · have h := ((update_recompute_periods exDb1 1 none none).2 (some (.num 42)) none 10 10
      (mkSample 1 (.num 10) 10) ⟨1, "sensor.x"⟩ ⟨7, "sensor.x"⟩
      (by with_unfolding_all rfl) rfl rfl rfl
      (by with_unfolding_all rfl) (by with_unfolding_all rfl)).2.2.2
    rw [h]
    with_unfolding_all rfl

/-! ### C9 -/

/-- 5-minute / hourly alignment of every bucket row in the database. -/
def DBAligned (db : DB) : Prop :=
  (∀ r ∈ db.stats_short, ∀ t, r.start_ts = some t → p5 t = t) ∧
  (∀ r ∈ db.stats_long, ∀ t, r.start_ts = some t → pHour t = t)

/-- The alignment requirement on an explicitly supplied new `start`. -/
def alignedStart : Option ℚ → StatType → Prop
  | none, _ => True
  | some s, .shortTerm => p5 s = s
  | some s, .longTerm => pHour s = s

/-- The short-term recomputation either leaves the short-term table unchanged
or rewrites one row with a start-preserving update. -/
theorem recalc_short_stats_short (db : DB) (m : Nat) (e : String) (s5 : ℚ) :
    (recalculate_short_term_stat db m e s5).1.stats_short = db.stats_short ∨
    ∃ f : StatisticsShortTermRow → StatisticsShortTermRow,
      (∀ q, (f q).start_ts = q.start_ts) ∧
      (recalculate_short_term_stat db m e s5).1.stats_short =
        updateFirst (shortRowMatch m s5) f db.stats_short := by
  unfold recalculate_short_term_stat
  cases db.stats_short.find? (shortRowMatch m s5) with
  | none => exact Or.inl rfl
  | some q =>
      by_cases hEmpty : (numericSamples db e s5).isEmpty = true
      · left
        simp only [if_pos hEmpty]
      · right
        refine ⟨shortAggUpdate db e s5, fun q => rfl, ?_⟩
        simp only [if_neg hEmpty]
        rfl

/-- The hourly recomputation either leaves the hourly table unchanged or
rewrites one row with a start-preserving update. -/
theorem recalc_long_stats_long (db : DB) (m : Nat) (startH : ℚ) :
    (recalculate_long_term_stat db m startH).1.stats_long = db.stats_long ∨
    ∃ f : StatisticsRow → StatisticsRow,
      (∀ q, (f q).start_ts = q.start_ts) ∧
      (recalculate_long_term_stat db m startH).1.stats_long =
        updateFirst (longRowMatch m startH) f db.stats_long := by
  unfold recalculate_long_term_stat
  by_cases hs : (shortTermsInHour db m startH).isEmpty = true
  · rw [if_pos hs]
    exact Or.inl rfl
  · rw [if_neg hs]
    cases db.stats_long.find? (longRowMatch m startH) with
    | none => exact Or.inl rfl
    | some q =>
        right
        exact ⟨longAggUpdate db m startH, fun q => rfl, rfl⟩

/-- Short-term recomputation preserves alignment. -/
theorem recalc_short_aligned {db : DB} (m : Nat) (e : String) (s5 : ℚ)
    (h : DBAligned db) : DBAligned (recalculate_short_term_stat db m e s5).1 := by
  obtain ⟨hs, hl⟩ := h
  constructor
  · rcases recalc_short_stats_short db m e s5 with heq | ⟨f, hf, heq⟩
    · rw [heq]
      exact hs
    · rw [heq]
      intro r hr t ht
      rcases updateFirst_mem hr with hmem | ⟨y, hy, rfl⟩
      · exact hs r hmem t ht
      · rw [hf y] at ht
        exact hs y hy t ht
  · rw [(recalc_short_frame db m e s5).2.2.1]
    exact hl

/-- Hourly recomputation preserves alignment. -/
theorem recalc_long_aligned {db : DB} (m : Nat) (startH : ℚ)
    (h : DBAligned db) : DBAligned (recalculate_long_term_stat db m startH).1 := by
  obtain ⟨hs, hl⟩ := h
  constructor
  · rw [(recalc_long_frame db m startH).2.2.1]
    exact hs
  · rcases recalc_long_stats_long db m startH with heq | ⟨f, hf, heq⟩
    · rw [heq]
      exact hl
    · rw [heq]
      intro r hr t ht
      rcases updateFirst_mem hr with hmem | ⟨y, hy, rfl⟩
      · exact hl r hmem t ht
      · rw [hf y] at ht
        exact hl y hy t ht

/-- The short-term recomputation loop preserves alignment. -/
theorem runShort_aligned (m : Nat) (e : String) :
    ∀ (l : List ℚ) (db : DB), DBAligned db → DBAligned (runShortRecalcs m e l db)
  | [], _, h => h
  | s :: rest, db, h =>
      runShort_aligned m e rest _ (recalc_short_aligned m e s h)

/-- The hourly recomputation loop preserves alignment. -/
theorem runLong_aligned (m : Nat) :
    ∀ (l : List ℚ) (db : DB), DBAligned db → DBAligned (runLongRecalcs m l db)
  | [], _, h => h
  | s :: rest, db, h =>
      runLong_aligned m rest _ (recalc_long_aligned m s h)

/-- The statistics cascade after a sample edit preserves alignment. -/
theorem updateStats_aligned (db : DB) (rec : StateRow) (old nlu : Option ℚ)
    (h : DBAligned db) :
    DBAligned (update_statistics_after_state_change db rec old nlu).1 := by
  unfold update_statistics_after_state_change
  repeat' split
  all_goals try exact h
  all_goals try exact runLong_aligned _ _ _ (runShort_aligned _ _ _ _ h)
  all_goals try simp only [ite_self]
  all_goals try exact h
  all_goals split <;> first
    | exact h
    | exact runLong_aligned _ _ _ (runShort_aligned _ _ _ _ h)

/-- A guard-passing short-term stat edit keeps every start aligned, provided
any supplied new start is 5-minute aligned. -/
theorem applyShortStatEdit_aligned {db : DB}
    (hs : ∀ r ∈ db.stats_short, ∀ t, r.start_ts = some t → p5 t = t)
    (mean mn mx sm st : Option ℚ) {start : Option ℚ}
    (hstart : ∀ s, start = some s → p5 s = s) (statId : Nat) :
    ∀ r ∈ updateFirst (fun r => decide (r.id = statId))
        (applyShortStatEdit mean mn mx sm st start) db.stats_short,
      ∀ t, r.start_ts = some t → p5 t = t := by
  intro r hr t ht
  rcases updateFirst_mem hr with hmem | ⟨y, hy, rfl⟩
  · exact hs r hmem t ht
  · cases hst : start with
    | none =>
        have hy' : y.start_ts = some t := by
          simpa [applyShortStatEdit, override, hst] using ht
        exact hs y hy t hy'
    | some s =>
        have hts : s = t := by
          simpa [applyShortStatEdit, override, hst] using ht
        exact hts ▸ hstart s hst

/-- A guard-passing hourly stat edit keeps every start aligned, provided any
supplied new start is hour aligned. -/
theorem applyLongStatEdit_aligned {db : DB}
    (hl : ∀ r ∈ db.stats_long, ∀ t, r.start_ts = some t → pHour t = t)
    (mean mn mx sm st : Option ℚ) {start : Option ℚ}
    (hstart : ∀ s, start = some s → pHour s = s) (statId : Nat) :
    ∀ r ∈ updateFirst (fun r => decide (r.id = statId))
        (applyLongStatEdit mean mn mx sm st start) db.stats_long,
      ∀ t, r.start_ts = some t → pHour t = t := by
  intro r hr t ht
  rcases updateFirst_mem hr with hmem | ⟨y, hy, rfl⟩
  · exact hl r hmem t ht
  · cases hst : start with
    | none =>
        have hy' : y.start_ts = some t := by
          simpa [applyLongStatEdit, override, hst] using ht
        exact hl y hy t hy'
    | some s =>
        have hts : s = t := by
          simpa [applyLongStatEdit, override, hst] using ht
        exact hts ▸ hstart s hst

/-- Sample update preserves alignment. -/
theorem update_record_aligned (db : DB) (h : DBAligned db) (sid : Nat)
    (ns : Option StateVal) (na : Option String) (nlc nlu : Option ℚ) :
    DBAligned (update_record_sync db sid ns na nlc nlu).1 := by
  unfold update_record_sync update_record_sync_with
  split
  · exact h
  · split
    · exact updateStats_aligned _ _ _ _ h
    · exact h

/-- Sample delete preserves alignment. -/
theorem delete_record_aligned (db : DB) (h : DBAligned db) (ok : Bool) (sid : Nat) :
    DBAligned (delete_record_sync ok db sid).1 := by
  obtain ⟨hs, hl⟩ := h
  cases hfind : db.states.find? (fun s => decide (s.state_id = sid)) with
  | none =>
      unfold delete_record_sync
      rw [hfind]
      exact ⟨hs, hl⟩
  | some st =>
      obtain ⟨_, hshort, hlong, _, _⟩ := delete_record_eval ok db sid st hfind
      constructor
      · intro r hr t ht
        rw [hshort] at hr
        cases ok with
        | true =>
            simp only [if_true] at hr
            exact hs r (List.mem_of_mem_filter hr) t ht
        | false =>
            simp only [Bool.false_eq_true, if_false] at hr
            exact hs r hr t ht
      · intro r hr t ht
        rw [hlong] at hr
        exact hl r hr t ht

/-- Sample creation preserves alignment. -/
theorem create_record_aligned (db : DB) (h : DBAligned db) (mId sId : Nat)
    (eid : String) (v : StateVal) (attrs : String) (lc lu : Option ℚ) :
    DBAligned (create_record_sync db mId sId eid v attrs lc lu).1 := by
  obtain ⟨hs, hl⟩ := h
  cases hfind : db.states_meta.find? (fun m => decide (m.entity_id = eid)) with
  | some m =>
      unfold create_record_sync
      rw [hfind]
      exact ⟨hs, hl⟩
  | none =>
      unfold create_record_sync
      rw [hfind]
      exact ⟨hs, hl⟩

/-- Statistic edit preserves alignment provided any supplied new start is
itself bucket-aligned. -/
theorem update_statistic_aligned (db : DB) (h : DBAligned db) (statId : Nat)
    (mean mn mx sm st start : Option ℚ) (t : StatType)
    (hst : alignedStart start t) :
    DBAligned (update_statistic_sync db statId mean mn mx sm st start t).1 := by
  obtain ⟨hs, hl⟩ := h
  cases t with
  | shortTerm =>
      have hstart : ∀ s, start = some s → p5 s = s := by
        intro s hseq
        rw [hseq] at hst
        exact hst
      cases hfind : db.stats_short.find? (fun r => decide (r.id = statId)) with
      | none =>
          unfold update_statistic_sync
          rw [hfind]
          exact ⟨hs, hl⟩
      | some stat =>
          by_cases hg : shortStatHasSourceData db stat = true
          · simp only [update_statistic_sync, hfind, hg, if_true]
            exact ⟨hs, hl⟩
          · have hg' : shortStatHasSourceData db stat = false := by
              cases hx : shortStatHasSourceData db stat
              · rfl
              · exact absurd hx hg
            have hdb1 : DBAligned { db with
                stats_short := updateFirst (fun r => decide (r.id = statId))
                  (applyShortStatEdit mean mn mx sm st start) db.stats_short } :=
              ⟨applyShortStatEdit_aligned hs mean mn mx sm st hstart statId, hl⟩
            simp only [update_statistic_sync, hfind, hg', Bool.false_eq_true, if_false]
            cases hets : (applyShortStatEdit mean mn mx sm st start stat).start_ts with
            | none =>
                simp only [hets]
                exact hdb1
            | some ets =>
                simp only [hets]
                exact recalc_long_aligned _ _ hdb1
  | longTerm =>
      have hstart : ∀ s, start = some s → pHour s = s := by
        intro s hseq
        rw [hseq] at hst
        exact hst
      cases hfind : db.stats_long.find? (fun r => decide (r.id = statId)) with
      | none =>
          unfold update_statistic_sync
          rw [hfind]
          exact ⟨hs, hl⟩
      | some stat =>
          by_cases hg : longStatHasSourceData db stat = true
          · simp only [update_statistic_sync, hfind, hg, if_true]
            exact ⟨hs, hl⟩
          · have hg' : longStatHasSourceData db stat = false := by
              cases hx : longStatHasSourceData db stat
              · rfl
              · exact absurd hx hg
            simp only [update_statistic_sync, hfind, hg', Bool.false_eq_true, if_false]
            exact ⟨hs, applyLongStatEdit_aligned hl mean mn mx sm st hstart statId⟩

/-- Statistic delete preserves alignment. -/
theorem delete_statistic_aligned (db : DB) (h : DBAligned db) (statId : Nat)
    (t : StatType) : DBAligned (delete_statistic_sync db statId t).1 := by
  obtain ⟨hs, hl⟩ := h
  cases t with
  | shortTerm =>
      cases hfind : db.stats_short.find? (fun r => decide (r.id = statId)) with
      | none =>
          unfold delete_statistic_sync
          rw [hfind]
          exact ⟨hs, hl⟩
      | some stat =>
          by_cases hg : shortStatHasSourceData db stat = true
          · simp only [delete_statistic_sync, hfind, hg, if_true]
            exact ⟨hs, hl⟩
          · have hg' : shortStatHasSourceData db stat = false := by
              cases hx : shortStatHasSourceData db stat
              · rfl
              · exact absurd hx hg
            have hpos : 0 < (db.stats_short.filter fun r => decide (r.id = statId)).length :=
              find?_filter_pos hfind
            have hdb1 : DBAligned { db with
                stats_short := db.stats_short.filter (fun r => !decide (r.id = statId)) } :=
              ⟨fun r hr t' ht' => hs r (List.mem_of_mem_filter hr) t' ht', hl⟩
            simp only [delete_statistic_sync, hfind, hg', Bool.false_eq_true, if_false,
              hpos, if_true]
            cases hets : stat.start_ts with
            | none =>
                simp only [hets]
                exact hdb1
            | some s0 =>
                simp only [hets]
                exact recalc_long_aligned _ _ hdb1
  | longTerm =>
      cases hfind : db.stats_long.find? (fun r => decide (r.id = statId)) with
      | none =>
          unfold delete_statistic_sync
          rw [hfind]
          exact ⟨hs, hl⟩
      | some stat =>
          by_cases hg : longStatHasSourceData db stat = true
          · simp only [delete_statistic_sync, hfind, hg, if_true]
            exact ⟨hs, hl⟩
          · have hg' : longStatHasSourceData db stat = false := by
              cases hx : longStatHasSourceData db stat
              · rfl
              · exact absurd hx hg
            have hpos : 0 < (db.stats_long.filter fun r => decide (r.id = statId)).length :=
              find?_filter_pos hfind
            simp only [delete_statistic_sync, hfind, hg', Bool.false_eq_true, if_false,
              hpos, if_true]
            exact ⟨hs, fun r hr t' ht' => hl r (List.mem_of_mem_filter hr) t' ht'⟩

/-- Counterexample to C9 as stated: `exDb3b` is fully aligned, yet the
statistic-edit entry point accepts an arbitrary new start (here 7, not a
multiple of 300) and commits it, so the core's operations can produce a
short-term rollup row that is not 5-minute aligned. -/
theorem alignment_counterexample :
    DBAligned exDb3b ∧
    (update_statistic_sync exDb3b 1 none none none none none (some 7)
        .shortTerm).2.1 = .success 1 ∧
    ({ exShortRow with start_ts := some 7 } ∈
      (update_statistic_sync exDb3b 1 none none none none none (some 7)
        .shortTerm).1.stats_short) ∧
    p5 7 ≠ 7 := by
  refine ⟨⟨?_, ?_⟩, by with_unfolding_all rfl, by with_unfolding_all decide,
    by with_unfolding_all decide⟩
  · intro r hr t ht
    have hr' : r = exShortRow := by
      simpa [exDb3b] using hr
    subst hr'
    have ht' : t = 0 := by
      simpa [exShortRow] using ht.symm
    subst ht'
    with_unfolding_all rfl
  · intro r hr t ht
    have hr' : r = exLongRow := by
      simpa [exDb3b] using hr
    subst hr'
    have ht' : t = 0 := by
      simpa [exLongRow] using ht.symm
    subst ht'
    with_unfolding_all rfl

/-- C9 (amended): every mutation entry point of the core preserves 5-minute
alignment of short-term bucket starts and hourly alignment of hourly bucket
starts, with the one exception the counterexample forces: the rollup edit
writes whatever `start` it is given, so its preservation holds provided a
supplied new start is itself aligned for the edited level. -/
theorem mutations_preserve_alignment (db : DB) (h : DBAligned db) :
    (∀ sid ns na nlc nlu, DBAligned (update_record_sync db sid ns na nlc nlu).1) ∧
    (∀ ok sid, DBAligned (delete_record_sync ok db sid).1) ∧
    (∀ mId sId eid v attrs lc lu,
      DBAligned (create_record_sync db mId sId eid v attrs lc lu).1) ∧
    (∀ statId mean mn mx sm st start t, alignedStart start t →
      DBAligned (update_statistic_sync db statId mean mn mx sm st start t).1) ∧
    (∀ statId t, DBAligned (delete_statistic_sync db statId t).1) :=
  ⟨fun sid ns na nlc nlu => update_record_aligned db h sid ns na nlc nlu,
   fun ok sid => delete_record_aligned db h ok sid,
   fun mId sId eid v attrs lc lu => create_record_aligned db h mId sId eid v attrs lc lu,
   fun statId mean mn mx sm st start t hst =>
     update_statistic_aligned db h statId mean mn mx sm st start t hst,
   fun statId t => delete_statistic_aligned db h statId t⟩

/-- Witness for the amended C9: editing the short-term row of `exDb3b` with
the aligned start 300 keeps the database aligned. -/
theorem mutations_preserve_alignment_instance :
    DBAligned (update_statistic_sync exDb3b 1 none none none none none (some 300)
      .shortTerm).1 := by
  have hal : DBAligned exDb3b := by
    constructor
    · intro r hr t ht
      have hr' : r = exShortRow := by
        simpa [exDb3b] using hr
      subst hr'
      have ht' : t = 0 := by
        simpa [exShortRow] using ht.symm
      subst ht'
      with_unfolding_all rfl
    · intro r hr t ht
      have hr' : r = exLongRow := by
        simpa [exDb3b] using hr
      subst hr'
      have ht' : t = 0 := by
        simpa [exLongRow] using ht.symm
      subst ht'
      with_unfolding_all rfl
  exact (mutations_preserve_alignment exDb3b hal).2.2.2.1 1 none none none none none
    (some 300) .shortTerm (by with_unfolding_all rfl)

end HistoryEditor
